import Mathlib

/-!
Verification of the chainhook TypeScript event-observer client.

The client validates Chainhook payloads and predicates with TypeBox JSON
schemas (`src/components/client/typescript/src/schemas/*`), serves the
`/payload` HTTP endpoint (`server.ts`), and registers predicates against a
Chainhook node (`predicates.ts`).  We shallowly embed the JSON data model,
the schema checkers, the `/payload` request handling, and the predicate
registration transformations, and prove the specification claims about them.

TypeBox semantics mirrored by the checkers:
* `Type.Object` accepts any JSON object having every required property
  (additional properties are allowed by default);
* `Type.Optional` properties may be absent, but must validate when present;
* `Type.Union` accepts a value validating any branch;
* `Type.Literal` compares for equality with the literal;
* `Type.Any` accepts everything;
* string `format` annotations (`uri`, `uuid`) are metadata: the client never
  registers format validators in TypeBox's `FormatRegistry`, so they do not
  constrain `Check`;
* JSON numbers are modelled as integers (`Type.Integer` is the only numeric
  schema reachable from the claims).
-/

/-- A JSON value, as received by the event observer's HTTP endpoints. -/
inductive Json where
  | null : Json
  | bool : Bool → Json
  | num : Int → Json
  | str : String → Json
  | arr : List Json → Json
  | obj : List (String × Json) → Json

/-- First-match property lookup in an object member list. -/
def lookupField : List (String × Json) → String → Option Json
  | [], _ => none
  | (k2, v) :: fs, k => if k2 == k then some v else lookupField fs k

/-- Property access: `j[k]` when `j` is an object, `undefined` otherwise. -/
def Json.get (j : Json) (k : String) : Option Json :=
  match j with
  | .obj fs => lookupField fs k
  | _ => none

/-- TypeBox object test: a JSON object (not null, not an array). -/
def Json.isObj : Json → Bool
  | .obj _ => true
  | _ => false

/-- `Type.String()` test. -/
def isString : Json → Bool
  | .str _ => true
  | _ => false

/-- `Type.Integer()` test (JSON numbers are modelled as integers). -/
def isInteger : Json → Bool
  | .num _ => true
  | _ => false

/-- `Type.Boolean()` test. -/
def isBoolean : Json → Bool
  | .bool _ => true
  | _ => false

/-- `Type.Literal(s)` test for a string literal. -/
def isLit (s : String) (j : Json) : Bool :=
  match j with
  | .str t => t == s
  | _ => false

/-- `Type.Any()` test. -/
def anyJson : Json → Bool := fun _ => true

/-- A required object property: present and valid. -/
def reqProp (j : Json) (k : String) (c : Json → Bool) : Bool :=
  match j.get k with
  | some v => c v
  | none => false

/-- An optional (`Type.Optional`) object property: absent, or present and valid. -/
def optProp (j : Json) (k : String) (c : Json → Bool) : Bool :=
  match j.get k with
  | some v => c v
  | none => true

/-- `Type.Array(c)` test: an array whose elements all validate against `c`. -/
def arrayOf (c : Json → Bool) : Json → Bool
  | .arr xs => xs.all c
  | _ => false

/-- `Nullable(c)` test: `Type.Union([c, Type.Null()])` (schemas/common). -/
def nullable (c : Json → Bool) (j : Json) : Bool :=
  match j with
  | .null => true
  | _ => c j

/-! ### Extraction lemmas for the checker combinators -/

theorem reqProp_true {j : Json} {k : String} {c : Json → Bool}
    (h : reqProp j k c = true) : ∃ v, j.get k = some v ∧ c v = true := by
  unfold reqProp at h
  cases hv : j.get k with
  | none => rw [hv] at h; cases h
  | some v => rw [hv] at h; exact ⟨v, rfl, h⟩

theorem reqProp_of_get {j : Json} {k : String} {c : Json → Bool} {v : Json}
    (hv : j.get k = some v) (hc : c v = true) : reqProp j k c = true := by
  unfold reqProp; rw [hv]; exact hc

theorem isString_true {j : Json} (h : isString j = true) : ∃ s, j = Json.str s := by
  cases j <;> simp [isString] at h ⊢

theorem isInteger_true {j : Json} (h : isInteger j = true) : ∃ n, j = Json.num n := by
  cases j <;> simp [isInteger] at h ⊢

theorem isBoolean_true {j : Json} (h : isBoolean j = true) : ∃ b, j = Json.bool b := by
  cases j <;> simp [isBoolean] at h ⊢

theorem isLit_true {s : String} {j : Json} (h : isLit s j = true) : j = Json.str s := by
  cases j <;> simp [isLit] at h ⊢
  exact h

theorem arrayOf_true {c : Json → Bool} {j : Json} (h : arrayOf c j = true) :
    ∃ xs, j = Json.arr xs ∧ ∀ x ∈ xs, c x = true := by
  cases j <;> simp [arrayOf] at h
  next xs => exact ⟨xs, rfl, by simpa [List.all_eq_true] using h⟩

theorem nullable_true {c : Json → Bool} {j : Json} (h : nullable c j = true) :
    j = Json.null ∨ c j = true := by
  cases j <;> simp [nullable] at h ⊢ <;> exact h

/-! ### Common schemas

The client's `schemas/common.ts` is not among the available sources (only its
importers are), so its schemas are modelled from the specification. -/

/-- Modelled from the spec: `BlockIdentifier — (index: u64, hash: bytes)`
(spec §3); `schemas/common.ts` is missing from the sources.  Hashes travel as
hex strings in payload examples (spec §8 scenario 5). -/
def checkBlockIdentifier (j : Json) : Bool :=
  j.isObj && reqProp j "index" isInteger && reqProp j "hash" isString

/-- Modelled from the spec: transaction identifiers expose a `hash` string
(`transaction_identifier.hash` in spec §8 scenario 5); `schemas/common.ts` is
missing from the sources. -/
def checkTransactionIdentifier (j : Json) : Bool :=
  j.isObj && reqProp j "hash" isString

/-- Modelled from the spec: Rosetta operation objects attached to transactions;
the spec states no constraint on their fields and `schemas/common.ts` is
missing from the sources, so any value is accepted. -/
def checkRosettaOperation : Json → Bool := anyJson

/-- Modelled from the spec: transaction `kind` is a tagged value
`{ContractCall|ContractDeployment|TokenTransfer|Coinbase|…}` (spec §3); the
enumeration is left open by the spec and `schemas/stacks/tx_kind.ts` is missing
from the sources, so only the tagged-object shape is checked. -/
def checkStacksTransactionKind (j : Json) : Bool :=
  j.isObj && reqProp j "type" isString

/-- Modelled from the spec: the Stacks `if_this` match specifications are a
tagged union over the scopes enumerated in spec §4.2;
`schemas/stacks/if_this.ts` is missing from the sources. -/
def stacksIfThisScopes : List String :=
  ["txid", "block_height", "ft_event", "nft_event", "stx_event",
   "print_event", "contract_call", "contract_deployment", "signer_message"]

/-- Modelled from the spec: a Stacks `if_this` value is an object whose `scope`
tag is one of the spec §4.2 Stacks scopes. -/
def checkStacksIfThis (j : Json) : Bool :=
  j.isObj &&
  reqProp j "scope"
    (fun s => match s with
      | .str t => stacksIfThisScopes.contains t
      | _ => false)

/-- Modelled from the spec: the Bitcoin `if_this` scopes of spec §4.2;
`schemas/bitcoin/if_this.ts` is missing from the sources. -/
def bitcoinIfThisScopes : List String :=
  ["txid", "outputs", "stacks_protocol", "ordinals_protocol"]

/-- Modelled from the spec: a Bitcoin `if_this` value is an object whose
`scope` tag is one of the spec §4.2 Bitcoin scopes. -/
def checkBitcoinIfThis (j : Json) : Bool :=
  j.isObj &&
  reqProp j "scope"
    (fun s => match s with
      | .str t => bitcoinIfThisScopes.contains t
      | _ => false)

/-! ### Stacks transaction events (`schemas/stacks/tx_events.ts`) -/

/-- `StacksTransactionEventPositionSchema`. -/
def checkEventPosition (j : Json) : Bool :=
  j.isObj && reqProp j "index" isInteger

/-- `StacksTransactionNftMintEventSchema`. -/
def checkNftMintEvent (j : Json) : Bool :=
  j.isObj && reqProp j "type" (isLit "NFTMintEvent") &&
  reqProp j "position" checkEventPosition &&
  reqProp j "data" (fun d => d.isObj &&
    reqProp d "asset_identifier" isString &&
    reqProp d "raw_value" isString &&
    reqProp d "recipient" isString)

/-- `StacksTransactionNftTransferEventSchema`. -/
def checkNftTransferEvent (j : Json) : Bool :=
  j.isObj && reqProp j "type" (isLit "NFTTransferEvent") &&
  reqProp j "position" checkEventPosition &&
  reqProp j "data" (fun d => d.isObj &&
    reqProp d "asset_identifier" isString &&
    reqProp d "raw_value" isString &&
    reqProp d "recipient" isString &&
    reqProp d "sender" isString)

/-- `StacksTransactionNftBurnEventSchema`. -/
def checkNftBurnEvent (j : Json) : Bool :=
  j.isObj && reqProp j "type" (isLit "NFTBurnEvent") &&
  reqProp j "position" checkEventPosition &&
  reqProp j "data" (fun d => d.isObj &&
    reqProp d "asset_identifier" isString &&
    reqProp d "raw_value" isString &&
    reqProp d "sender" isString)

/-- `StacksTransactionFtTransferEventSchema`. -/
def checkFtTransferEvent (j : Json) : Bool :=
  j.isObj && reqProp j "type" (isLit "FTTransferEvent") &&
  reqProp j "position" checkEventPosition &&
  reqProp j "data" (fun d => d.isObj &&
    reqProp d "amount" isString &&
    reqProp d "asset_identifier" isString &&
    reqProp d "recipient" isString &&
    reqProp d "sender" isString)

/-- `StacksTransactionFtMintEventSchema`. -/
def checkFtMintEvent (j : Json) : Bool :=
  j.isObj && reqProp j "type" (isLit "FTMintEvent") &&
  reqProp j "position" checkEventPosition &&
  reqProp j "data" (fun d => d.isObj &&
    reqProp d "amount" isString &&
    reqProp d "asset_identifier" isString &&
    reqProp d "recipient" isString)

/-- `StacksTransactionFtBurnEventSchema`. -/
def checkFtBurnEvent (j : Json) : Bool :=
  j.isObj && reqProp j "type" (isLit "FTBurnEvent") &&
  reqProp j "position" checkEventPosition &&
  reqProp j "data" (fun d => d.isObj &&
    reqProp d "amount" isString &&
    reqProp d "asset_identifier" isString &&
    reqProp d "sender" isString)

/-- `StacksTransactionSmartContractEventSchema`. -/
def checkSmartContractEvent (j : Json) : Bool :=
  j.isObj && reqProp j "type" (isLit "SmartContractEvent") &&
  reqProp j "position" checkEventPosition &&
  reqProp j "data" (fun d => d.isObj &&
    reqProp d "contract_identifier" isString &&
    reqProp d "raw_value" isString &&
    reqProp d "topic" isString)

/-- `StacksTransactionStxTransferEventSchema`. -/
def checkStxTransferEvent (j : Json) : Bool :=
  j.isObj && reqProp j "type" (isLit "STXTransferEvent") &&
  reqProp j "position" checkEventPosition &&
  reqProp j "data" (fun d => d.isObj &&
    reqProp d "amount" isString &&
    reqProp d "sender" isString &&
    reqProp d "recipient" isString)

/-- `StacksTransactionStxMintEventSchema`. -/
def checkStxMintEvent (j : Json) : Bool :=
  j.isObj && reqProp j "type" (isLit "STXMintEvent") &&
  reqProp j "position" checkEventPosition &&
  reqProp j "data" (fun d => d.isObj &&
    reqProp d "amount" isString &&
    reqProp d "recipient" isString)

/-- `StacksTransactionStxLockEventSchema`. -/
def checkStxLockEvent (j : Json) : Bool :=
  j.isObj && reqProp j "type" (isLit "STXLockEvent") &&
  reqProp j "position" checkEventPosition &&
  reqProp j "data" (fun d => d.isObj &&
    reqProp d "locked_amount" isString &&
    reqProp d "unlock_height" isString &&
    reqProp d "locked_address" isString)

/-- `StacksTransactionStxBurnEventSchema`. -/
def checkStxBurnEvent (j : Json) : Bool :=
  j.isObj && reqProp j "type" (isLit "STXBurnEvent") &&
  reqProp j "position" checkEventPosition &&
  reqProp j "data" (fun d => d.isObj &&
    reqProp d "amount" isString &&
    reqProp d "sender" isString)

/-- `StacksTransactionDataVarSetEventSchema`. -/
def checkDataVarSetEvent (j : Json) : Bool :=
  j.isObj && reqProp j "type" (isLit "DataVarSetEvent") &&
  reqProp j "data" (fun d => d.isObj &&
    reqProp d "contract_identifier" isString &&
    reqProp d "var" isString &&
    reqProp d "new_value" anyJson)

/-- `StacksTransactionDataMapInsertEventSchema`. -/
def checkDataMapInsertEvent (j : Json) : Bool :=
  j.isObj && reqProp j "type" (isLit "DataMapInsertEvent") &&
  reqProp j "data" (fun d => d.isObj &&
    reqProp d "contract_identifier" isString &&
    reqProp d "map" isString &&
    reqProp d "inserted_key" anyJson &&
    reqProp d "inserted_value" anyJson)

/-- `StacksTransactionDataMapUpdateEventSchema`. -/
def checkDataMapUpdateEvent (j : Json) : Bool :=
  j.isObj && reqProp j "type" (isLit "DataMapUpdateEvent") &&
  reqProp j "data" (fun d => d.isObj &&
    reqProp d "contract_identifier" isString &&
    reqProp d "map" isString &&
    reqProp d "key" anyJson &&
    reqProp d "new_value" anyJson)

/-- `StacksTransactionDataMapDeleteEventSchema`. -/
def checkDataMapDeleteEvent (j : Json) : Bool :=
  j.isObj && reqProp j "type" (isLit "DataMapDeleteEvent") &&
  reqProp j "data" (fun d => d.isObj &&
    reqProp d "contract_identifier" isString &&
    reqProp d "map" isString &&
    reqProp d "deleted_key" anyJson)

/-- `StacksTransactionEventSchema`: the union of the fifteen typed transaction
event schemas, in source order. -/
def checkStacksTransactionEvent (j : Json) : Bool :=
  checkFtTransferEvent j || checkFtMintEvent j || checkFtBurnEvent j ||
  checkNftTransferEvent j || checkNftMintEvent j || checkNftBurnEvent j ||
  checkStxTransferEvent j || checkStxMintEvent j || checkStxLockEvent j ||
  checkStxBurnEvent j || checkDataVarSetEvent j || checkDataMapInsertEvent j ||
  checkDataMapUpdateEvent j || checkDataMapDeleteEvent j ||
  checkSmartContractEvent j

/-! ### Stacks Nakamoto signer messages (`schemas/stacks/tx_events.ts`) -/

/-- `StacksNakamotoBlockHeaderSchema`. -/
def checkNakamotoBlockHeader (j : Json) : Bool :=
  j.isObj &&
  reqProp j "version" isInteger &&
  reqProp j "chain_length" isInteger &&
  reqProp j "burn_spent" isInteger &&
  reqProp j "consensus_hash" isString &&
  reqProp j "parent_block_id" isString &&
  reqProp j "tx_merkle_root" isString &&
  reqProp j "state_index_root" isString &&
  reqProp j "timestamp" isInteger &&
  reqProp j "miner_signature" isString &&
  reqProp j "signer_signature" (arrayOf isString) &&
  reqProp j "pox_treatment" isString

/-- `StacksNakamotoBlockSchema`. -/
def checkNakamotoBlock (j : Json) : Bool :=
  j.isObj &&
  reqProp j "header" checkNakamotoBlockHeader &&
  reqProp j "block_hash" isString &&
  reqProp j "index_block_hash" isString

/-- `StacksSignerMessageBlockProposalSchema`. -/
def checkSignerBlockProposal (j : Json) : Bool :=
  j.isObj && reqProp j "type" (isLit "BlockProposal") &&
  reqProp j "data" (fun d => d.isObj &&
    reqProp d "block" checkNakamotoBlock &&
    reqProp d "burn_height" isInteger &&
    reqProp d "reward_cycle" isInteger)

/-- `StacksSignerMessageMetadataSchema`. -/
def checkSignerMessageMetadata (j : Json) : Bool :=
  j.isObj && reqProp j "server_version" isString

/-- `StacksSignerMessageBlockResponseAcceptedSchema`. -/
def checkSignerBlockResponseAccepted (j : Json) : Bool :=
  j.isObj && reqProp j "type" (isLit "Accepted") &&
  reqProp j "data" (fun d => d.isObj &&
    reqProp d "signer_signature_hash" isString &&
    reqProp d "signature" isString &&
    reqProp d "metadata" (fun m => m.isObj && reqProp m "server_version" isString))

/-- The `reason_code` union inside `StacksSignerMessageBlockResponseRejectedSchema`:
either an object carrying a `VALIDATION_FAILED` literal, or one of five bare
literals. -/
def checkSignerRejectedReasonCode (j : Json) : Bool :=
  (j.isObj &&
    reqProp j "VALIDATION_FAILED"
      (fun v => isLit "BAD_BLOCK_HASH" v || isLit "BAD_TRANSACTION" v ||
        isLit "INVALID_BLOCK" v || isLit "CHAINSTATE_ERROR" v ||
        isLit "UNKNOWN_PARENT" v || isLit "NON_CANONICAL_TENURE" v ||
        isLit "NO_SUCH_TENURE" v)) ||
  isLit "CONNECTIVITY_ISSUES" j ||
  isLit "REJECTED_IN_PRIOR_ROUND" j ||
  isLit "NO_SORTITION_VIEW" j ||
  isLit "SORTITION_VIEW_MISMATCH" j ||
  isLit "TESTING_DIRECTIVE" j

/-- `StacksSignerMessageBlockResponseRejectedSchema`. -/
def checkSignerBlockResponseRejected (j : Json) : Bool :=
  j.isObj && reqProp j "type" (isLit "Rejected") &&
  reqProp j "data" (fun d => d.isObj &&
    reqProp d "reason" isString &&
    reqProp d "reason_code" checkSignerRejectedReasonCode &&
    reqProp d "signer_signature_hash" isString &&
    reqProp d "chain_id" isInteger &&
    reqProp d "signature" isString &&
    reqProp d "metadata" checkSignerMessageMetadata)

/-- `StacksSignerMessageBlockResponseSchema`. -/
def checkSignerBlockResponse (j : Json) : Bool :=
  j.isObj && reqProp j "type" (isLit "BlockResponse") &&
  reqProp j "data"
    (fun d => checkSignerBlockResponseAccepted d || checkSignerBlockResponseRejected d)

/-- `StacksSignerMessageBlockPushedSchema`. -/
def checkSignerBlockPushed (j : Json) : Bool :=
  j.isObj && reqProp j "type" (isLit "BlockPushed") &&
  reqProp j "data" (fun d => d.isObj && reqProp d "block" checkNakamotoBlock)

/-- `StacksSignerMessagePeerInfoSchema`. -/
def checkSignerPeerInfo (j : Json) : Bool :=
  j.isObj &&
  reqProp j "burn_block_height" isInteger &&
  reqProp j "stacks_tip_consensus_hash" isString &&
  reqProp j "stacks_tip" isString &&
  reqProp j "stacks_tip_height" isInteger &&
  reqProp j "pox_consensus" isString &&
  reqProp j "server_version" isString &&
  reqProp j "network_id" isInteger &&
  reqProp j "index_block_hash" isString

/-- `StacksSignerMessageMockProposalDataSchema`. -/
def checkSignerMockProposalData (j : Json) : Bool :=
  j.isObj && reqProp j "peer_info" checkSignerPeerInfo

/-- `StacksSignerMessageMockSignatureDataSchema`. -/
def checkSignerMockSignatureData (j : Json) : Bool :=
  j.isObj &&
  reqProp j "mock_proposal" checkSignerMockProposalData &&
  reqProp j "metadata" checkSignerMessageMetadata &&
  reqProp j "signature" isString &&
  reqProp j "pubkey" isString

/-- `StacksSignerMessageMockSignatureSchema`. -/
def checkSignerMockSignature (j : Json) : Bool :=
  j.isObj && reqProp j "type" (isLit "MockSignature") &&
  reqProp j "data" checkSignerMockSignatureData

/-- `StacksSignerMessageMockProposalSchema`. -/
def checkSignerMockProposal (j : Json) : Bool :=
  j.isObj && reqProp j "type" (isLit "MockProposal") &&
  reqProp j "data" checkSignerPeerInfo

/-- `StacksSignerMessageMockBlockSchema`. -/
def checkSignerMockBlock (j : Json) : Bool :=
  j.isObj && reqProp j "type" (isLit "MockBlock") &&
  reqProp j "data" (fun d => d.isObj &&
    reqProp d "mock_proposal" checkSignerMockProposalData &&
    reqProp d "mock_signatures" (arrayOf checkSignerMockSignatureData))

/-- `StacksSignerMessageSchema`: the union of the six Nakamoto signer message
schemas, in source order. -/
def checkStacksSignerMessage (j : Json) : Bool :=
  checkSignerBlockProposal j || checkSignerBlockResponse j ||
  checkSignerBlockPushed j || checkSignerMockSignature j ||
  checkSignerMockProposal j || checkSignerMockBlock j

/-- `StacksSignerMessageEventSchema`. -/
def checkStacksSignerMessageEvent (j : Json) : Bool :=
  j.isObj && reqProp j "type" (isLit "SignerMessage") &&
  reqProp j "data" (fun d => d.isObj &&
    reqProp d "contract" isString &&
    reqProp d "sig" isString &&
    reqProp d "pubkey" isString &&
    reqProp d "message" checkStacksSignerMessage)

/-! ### Stacks payload (`schemas/stacks/payload.ts`) -/

/-- The object inside `StacksExecutionCostSchema` (the schema itself wraps it
in `Type.Optional`). -/
def checkStacksExecutionCost (j : Json) : Bool :=
  j.isObj &&
  reqProp j "read_count" isInteger &&
  reqProp j "read_length" isInteger &&
  reqProp j "runtime" isInteger &&
  reqProp j "write_count" isInteger &&
  reqProp j "write_length" isInteger

/-- `StacksTransactionReceiptSchema`. -/
def checkStacksTransactionReceipt (j : Json) : Bool :=
  j.isObj &&
  reqProp j "contract_calls_stack" (arrayOf isString) &&
  reqProp j "events" (arrayOf checkStacksTransactionEvent) &&
  reqProp j "mutated_assets_radius" (arrayOf isString) &&
  reqProp j "mutated_contracts_radius" (arrayOf isString)

/-- `StacksTransactionPositionSchema`. -/
def checkStacksTransactionPosition (j : Json) : Bool :=
  j.isObj &&
  reqProp j "index" isInteger &&
  optProp j "micro_block_identifier" checkBlockIdentifier

/-- `StacksTransactionMetadataSchema`. -/
def checkStacksTransactionMetadata (j : Json) : Bool :=
  j.isObj &&
  reqProp j "description" isString &&
  optProp j "execution_cost" checkStacksExecutionCost &&
  reqProp j "fee" isInteger &&
  reqProp j "kind" checkStacksTransactionKind &&
  reqProp j "nonce" isInteger &&
  reqProp j "position" checkStacksTransactionPosition &&
  reqProp j "proof" (nullable isString) &&
  reqProp j "raw_tx" isString &&
  reqProp j "receipt" checkStacksTransactionReceipt &&
  reqProp j "result" isString &&
  reqProp j "sender" isString &&
  optProp j "sponsor" isString &&
  reqProp j "success" isBoolean &&
  optProp j "contract_abi" anyJson

/-- `StacksTransactionSchema`. -/
def checkStacksTransaction (j : Json) : Bool :=
  j.isObj &&
  reqProp j "transaction_identifier" checkTransactionIdentifier &&
  reqProp j "operations" (arrayOf checkRosettaOperation) &&
  reqProp j "metadata" checkStacksTransactionMetadata

/-- The `reward_set` object inside `StacksEventMetadataSchema`. -/
def checkRewardSet (j : Json) : Bool :=
  j.isObj &&
  reqProp j "pox_ustx_threshold" isString &&
  reqProp j "rewarded_addresses" (arrayOf isString) &&
  reqProp j "signers"
    (nullable (arrayOf (fun s => s.isObj &&
      reqProp s "signing_key" isString &&
      reqProp s "weight" isInteger &&
      reqProp s "stacked_amt" isString)))

/-- `StacksEventMetadataSchema`. -/
def checkStacksEventMetadata (j : Json) : Bool :=
  j.isObj &&
  reqProp j "bitcoin_anchor_block_identifier" checkBlockIdentifier &&
  reqProp j "confirm_microblock_identifier" (nullable checkBlockIdentifier) &&
  reqProp j "pox_cycle_index" isInteger &&
  reqProp j "pox_cycle_length" isInteger &&
  reqProp j "pox_cycle_position" isInteger &&
  reqProp j "stacks_block_hash" isString &&
  reqProp j "tenure_height" (nullable isInteger) &&
  reqProp j "block_time" (nullable isInteger) &&
  reqProp j "signer_bitvec" (nullable isString) &&
  reqProp j "signer_signature" (nullable (arrayOf isString)) &&
  reqProp j "cycle_number" (nullable isInteger) &&
  reqProp j "reward_set" (nullable checkRewardSet)

/-- `StacksEventSchema` (one enriched Stacks block of a payload). -/
def checkStacksEvent (j : Json) : Bool :=
  j.isObj &&
  reqProp j "block_identifier" checkBlockIdentifier &&
  reqProp j "parent_block_identifier" checkBlockIdentifier &&
  reqProp j "timestamp" isInteger &&
  reqProp j "transactions" (arrayOf checkStacksTransaction) &&
  reqProp j "metadata" checkStacksEventMetadata

/-- `StacksPayloadSchema`. -/
def checkStacksPayload (j : Json) : Bool :=
  j.isObj &&
  reqProp j "apply" (arrayOf checkStacksEvent) &&
  reqProp j "rollback" (arrayOf checkStacksEvent) &&
  reqProp j "chainhook" (fun ch => ch.isObj &&
    reqProp ch "uuid" isString &&
    reqProp ch "predicate" checkStacksIfThis &&
    reqProp ch "is_streaming_blocks" isBoolean)

/-! ### Bitcoin payload (`schemas/bitcoin/payload.ts`) -/

/-- `BitcoinInscriptionRevealedSchema`. -/
def checkBitcoinInscriptionRevealed (j : Json) : Bool :=
  j.isObj &&
  reqProp j "content_bytes" isString &&
  reqProp j "content_type" isString &&
  reqProp j "content_length" isInteger &&
  reqProp j "inscription_number" (fun n => n.isObj &&
    reqProp n "jubilee" isInteger &&
    reqProp n "classic" isInteger) &&
  reqProp j "inscription_fee" isInteger &&
  reqProp j "inscription_id" isString &&
  reqProp j "inscription_input_index" isInteger &&
  reqProp j "inscription_output_value" isInteger &&
  reqProp j "inscription_pointer" (nullable isInteger) &&
  reqProp j "inscriber_address" (nullable isString) &&
  reqProp j "delegate" (nullable isString) &&
  reqProp j "metaprotocol" (nullable isString) &&
  reqProp j "metadata" (nullable anyJson) &&
  reqProp j "parent" (nullable isString) &&
  reqProp j "ordinal_number" isInteger &&
  reqProp j "ordinal_block_height" isInteger &&
  reqProp j "ordinal_offset" isInteger &&
  reqProp j "satpoint_post_inscription" isString &&
  reqProp j "transfers_pre_inscription" isInteger &&
  reqProp j "curse_type" (nullable anyJson) &&
  reqProp j "tx_index" isInteger

/-- `BitcoinInscriptionTransferredSchema`. -/
def checkBitcoinInscriptionTransferred (j : Json) : Bool :=
  j.isObj &&
  reqProp j "destination" (fun d => d.isObj &&
    reqProp d "type"
      (fun t => isLit "transferred" t || isLit "spent_in_fees" t || isLit "burnt" t) &&
    optProp d "value" isString) &&
  reqProp j "ordinal_number" isInteger &&
  reqProp j "satpoint_pre_transfer" isString &&
  reqProp j "satpoint_post_transfer" isString &&
  reqProp j "post_transfer_output_value" (nullable isInteger) &&
  reqProp j "tx_index" isInteger

/-- `BitcoinOrdinalOperationSchema`. -/
def checkBitcoinOrdinalOperation (j : Json) : Bool :=
  j.isObj &&
  optProp j "inscription_revealed" checkBitcoinInscriptionRevealed &&
  optProp j "inscription_transferred" checkBitcoinInscriptionTransferred

/-- `BitcoinOutputSchema`. -/
def checkBitcoinOutput (j : Json) : Bool :=
  j.isObj &&
  reqProp j "script_pubkey" isString &&
  reqProp j "value" isInteger

/-- `BitcoinBrc20DeployOperationSchema`. -/
def checkBrc20Deploy (j : Json) : Bool :=
  j.isObj &&
  reqProp j "deploy" (fun d => d.isObj &&
    reqProp d "tick" isString &&
    reqProp d "max" isString &&
    reqProp d "lim" isString &&
    reqProp d "dec" isString &&
    reqProp d "address" isString &&
    reqProp d "inscription_id" isString &&
    reqProp d "self_mint" isBoolean)

/-- `BitcoinBrc20MintOperationSchema`. -/
def checkBrc20Mint (j : Json) : Bool :=
  j.isObj &&
  reqProp j "mint" (fun d => d.isObj &&
    reqProp d "tick" isString &&
    reqProp d "amt" isString &&
    reqProp d "address" isString &&
    reqProp d "inscription_id" isString)

/-- `BitcoinBrc20TransferOperationSchema`. -/
def checkBrc20Transfer (j : Json) : Bool :=
  j.isObj &&
  reqProp j "transfer" (fun d => d.isObj &&
    reqProp d "tick" isString &&
    reqProp d "amt" isString &&
    reqProp d "address" isString &&
    reqProp d "inscription_id" isString)

/-- `BitcoinBrc20TransferSendOperationSchema`. -/
def checkBrc20TransferSend (j : Json) : Bool :=
  j.isObj &&
  reqProp j "transfer_send" (fun d => d.isObj &&
    reqProp d "tick" isString &&
    reqProp d "amt" isString &&
    reqProp d "sender_address" isString &&
    reqProp d "receiver_address" isString &&
    reqProp d "inscription_id" isString)

/-- `BitcoinBrc20OperationSchema`. -/
def checkBrc20Operation (j : Json) : Bool :=
  checkBrc20Deploy j || checkBrc20Mint j || checkBrc20Transfer j ||
  checkBrc20TransferSend j

/-- `BitcoinTransactionMetadataSchema`. -/
def checkBitcoinTransactionMetadata (j : Json) : Bool :=
  j.isObj &&
  reqProp j "ordinal_operations" (arrayOf checkBitcoinOrdinalOperation) &&
  optProp j "brc20_operation" checkBrc20Operation &&
  optProp j "outputs" (arrayOf checkBitcoinOutput) &&
  reqProp j "proof" (nullable isString)

/-- `BitcoinTransactionSchema`. -/
def checkBitcoinTransaction (j : Json) : Bool :=
  j.isObj &&
  reqProp j "transaction_identifier" checkTransactionIdentifier &&
  reqProp j "operations" (arrayOf checkRosettaOperation) &&
  reqProp j "metadata" checkBitcoinTransactionMetadata

/-- `BitcoinEventSchema` (one Bitcoin block of a payload). -/
def checkBitcoinEvent (j : Json) : Bool :=
  j.isObj &&
  reqProp j "block_identifier" checkBlockIdentifier &&
  reqProp j "parent_block_identifier" checkBlockIdentifier &&
  reqProp j "timestamp" isInteger &&
  reqProp j "transactions" (arrayOf checkBitcoinTransaction) &&
  reqProp j "metadata" anyJson

/-- Modelled from the spec: `BitcoinPayloadSchema` itself is missing from the
sources (only `BitcoinEventSchema` and the union in `schemas/payload.ts`
are); per spec §6 the dispatched payload is
`\x7b apply: [Block], rollback: [Block], chainhook: \x7b uuid, predicate,
is_streaming_blocks \x7d \x7d`, the Bitcoin analogue of `StacksPayloadSchema`. -/
def checkBitcoinPayload (j : Json) : Bool :=
  j.isObj &&
  reqProp j "apply" (arrayOf checkBitcoinEvent) &&
  reqProp j "rollback" (arrayOf checkBitcoinEvent) &&
  reqProp j "chainhook" (fun ch => ch.isObj &&
    reqProp ch "uuid" isString &&
    reqProp ch "predicate" checkBitcoinIfThis &&
    reqProp ch "is_streaming_blocks" isBoolean)

/-- `PayloadSchema` (`schemas/payload.ts`): the union of the Bitcoin and
Stacks payload schemas, in source order. -/
def checkPayload (j : Json) : Bool :=
  checkBitcoinPayload j || checkStacksPayload j

/-! ### Predicate schemas (`schemas/predicate.ts`) -/

/-- `ThenThatFileAppendSchema`. -/
def checkThenThatFileAppend (j : Json) : Bool :=
  j.isObj &&
  reqProp j "file_append" (fun f => f.isObj && reqProp f "path" isString)

/-- `ThenThatHttpPostSchema` (the `url` carries a `uri` format annotation,
and `uuid` elsewhere; format validators are never registered, see the file
header). -/
def checkThenThatHttpPost (j : Json) : Bool :=
  j.isObj &&
  reqProp j "http_post" (fun f => f.isObj &&
    reqProp f "url" isString &&
    reqProp f "authorization_header" isString)

/-- `ThenThatSchema`: the union of the two action schemas, in source order. -/
def checkThenThat (j : Json) : Bool :=
  checkThenThatFileAppend j || checkThenThatHttpPost j

/-- `PredicateExpiredDataSchema`. -/
def checkPredicateExpiredData (j : Json) : Bool :=
  j.isObj &&
  reqProp j "expired_at_block_height" isInteger &&
  reqProp j "last_evaluated_block_height" isInteger &&
  optProp j "last_occurrence" isInteger &&
  reqProp j "number_of_blocks_evaluated" isInteger &&
  reqProp j "number_of_times_triggered" isInteger

/-- The `scanning` variant of `PredicateStatusSchema`. -/
def checkStatusScanning (j : Json) : Bool :=
  j.isObj &&
  reqProp j "info" (fun i => i.isObj &&
    reqProp i "number_of_blocks_to_scan" isInteger &&
    reqProp i "number_of_blocks_evaluated" isInteger &&
    reqProp i "number_of_times_triggered" isInteger &&
    optProp i "last_occurrence" isInteger &&
    reqProp i "last_evaluated_block_height" isInteger) &&
  reqProp j "type" (isLit "scanning")

/-- The `streaming` variant of `PredicateStatusSchema`. -/
def checkStatusStreaming (j : Json) : Bool :=
  j.isObj &&
  reqProp j "info" (fun i => i.isObj &&
    optProp i "last_occurrence" isInteger &&
    reqProp i "last_evaluation" isInteger &&
    reqProp i "number_of_times_triggered" isInteger &&
    reqProp i "number_of_blocks_evaluated" isInteger &&
    reqProp i "last_evaluated_block_height" isInteger) &&
  reqProp j "type" (isLit "streaming")

/-- The `unconfirmed_expiration` variant of `PredicateStatusSchema`. -/
def checkStatusUnconfirmedExpiration (j : Json) : Bool :=
  j.isObj &&
  reqProp j "info" checkPredicateExpiredData &&
  reqProp j "type" (isLit "unconfirmed_expiration")

/-- The `confirmed_expiration` variant of `PredicateStatusSchema`. -/
def checkStatusConfirmedExpiration (j : Json) : Bool :=
  j.isObj &&
  reqProp j "info" checkPredicateExpiredData &&
  reqProp j "type" (isLit "confirmed_expiration")

/-- The `interrupted` variant of `PredicateStatusSchema`: `info` is the
human-readable reason string. -/
def checkStatusInterrupted (j : Json) : Bool :=
  j.isObj &&
  reqProp j "info" isString &&
  reqProp j "type" (isLit "interrupted")

/-- The `new` variant of `PredicateStatusSchema`. -/
def checkStatusNew (j : Json) : Bool :=
  j.isObj && reqProp j "type" (isLit "new")

/-- `PredicateStatusSchema`: the union of the six status variants, in source
order. -/
def checkPredicateStatus (j : Json) : Bool :=
  checkStatusScanning j || checkStatusStreaming j ||
  checkStatusUnconfirmedExpiration j || checkStatusConfirmedExpiration j ||
  checkStatusInterrupted j || checkStatusNew j

/-- `SerializedPredicateSchema`. -/
def checkSerializedPredicate (j : Json) : Bool :=
  j.isObj &&
  reqProp j "chain" (fun c => isLit "stacks" c || isLit "bitcoin" c) &&
  reqProp j "uuid" isString &&
  reqProp j "network" (fun n => isLit "mainnet" n || isLit "testnet" n) &&
  reqProp j "predicate" anyJson &&
  reqProp j "status" checkPredicateStatus &&
  reqProp j "enabled" isBoolean

/-! ### The event observer server (`server.ts`)

Only the options consulted by the modelled behavior are kept; connection
fields (`hostname`, `port`, node addresses) configure I/O and are omitted.
`Option` fields model TypeScript optional properties, resolved by the
source's `?? default` expressions.  The predicate record types come first,
because the observer options carry the optional
`predicate_re_register_callback` hook over predicate bodies. -/

/-- The `networks` record of a predicate; each declared network maps to its
`if_this`/`then_that`/options object. -/
structure Networks where
  mainnet : Option Json := none
  testnet : Option Json := none

/-- `EventObserverPredicate` (`index.ts`): the caller-built predicate core —
no `uuid`, and no `then_that` inside the networks. -/
structure PendingPredicate where
  name : String
  version : Int
  chain : String
  networks : Networks

/-- A full predicate as POSTed to the Chainhook node (`PredicateSchema`
header fields plus networks). -/
structure PredicateObj where
  uuid : String
  name : String
  version : Int
  chain : String
  networks : Networks

structure EventObserverOptions where
  auth_token : String
  external_base_url : String
  validate_chainhook_payloads : Option Bool := none
  validate_token_authorization : Option Bool := none
  /-- The user hook `registerPredicate` applies to the predicate body right
  before POSTing it (`predicates.ts`); the source's async callback is
  modelled as a pure transformation of the body. -/
  predicate_re_register_callback : Option (PredicateObj → PredicateObj) := none

/-- `serverOpts.validate_token_authorization ?? true`. -/
def validateTokenAuth (o : EventObserverOptions) : Bool :=
  o.validate_token_authorization.getD true

/-- `serverOpts.validate_chainhook_payloads ?? false`. -/
def validatePayloads (o : EventObserverOptions) : Bool :=
  o.validate_chainhook_payloads.getD false

/-- `isEventAuthorized` (`server.ts`): the request passes the `preHandler`
hook when token validation is disabled, or when the `authorization` header is
present, truthy (non-empty), and equal to `Bearer <auth_token>`; otherwise the
reply is 403. -/
def isEventAuthorized (o : EventObserverOptions) (authHeader : Option String) : Bool :=
  if validateTokenAuth o = false then true
  else
    match authHeader with
    | some h => (h != "") && (h == "Bearer " ++ o.auth_token)
    | none => false

/-- Outcome of the user event callback awaited by the `/payload` handler. -/
inductive CallbackResult where
  | resolved
  | badPayloadError
  | processingError

/-- The `/payload` route handler body (`server.ts`): 422 when payload
validation is enabled and the body fails `PayloadSchema`, otherwise 200 when
the callback resolves, 400 when it throws `BadPayloadRequestError`, and 500
when it throws anything else. -/
def payloadHandlerStatus (o : EventObserverOptions) (body : Json)
    (r : CallbackResult) : Nat :=
  if validatePayloads o && !(checkPayload body) then 422
  else
    match r with
    | .resolved => 200
    | .badPayloadError => 400
    | .processingError => 500

/-- Whether a request reaches the user callback: it must pass the
authorization `preHandler` and not be rejected by payload validation. -/
def callbackInvoked (o : EventObserverOptions) (authHeader : Option String)
    (body : Json) : Bool :=
  isEventAuthorized o authHeader && !(validatePayloads o && !(checkPayload body))

/-- The HTTP status of a POST to `/payload`: the `preHandler` replies 403 to
unauthorized requests before the route handler runs. -/
def serverReply (o : EventObserverOptions) (authHeader : Option String)
    (body : Json) (r : CallbackResult) : Nat :=
  if isEventAuthorized o authHeader = false then 403
  else payloadHandlerStatus o body r

/-! ### Predicate registration (`predicates.ts`)

`registerPredicate` receives an `EventObserverPredicate` (no `uuid`, no
`then_that`), assigns a random `uuid`, overwrites each declared network's
`then_that` with the observer's `http_post` action, passes the body through
the `predicate_re_register_callback` hook when that observer option is
configured, and POSTs the result.  The legacy `registerPredicates` path
receives a full `ServerPredicate` (caller-supplied `uuid`) and only
overwrites `then_that`, with no callback hook.  JavaScript property
assignment is modelled by `setField`; the `randomUUID()` result is the
`freshUuid` parameter. -/

/-- Property assignment on an object member list: overwrite the first
occurrence of the key, or append the member. -/
def setFields : List (String × Json) → String → Json → List (String × Json)
  | [], k, v => [(k, v)]
  | (k2, v2) :: fs, k, v =>
      if k2 == k then (k2, v) :: fs else (k2, v2) :: setFields fs k v

/-- JavaScript property assignment `j[k] = v` (no-op on non-objects). -/
def setField (j : Json) (k : String) (v : Json) : Json :=
  match j with
  | .obj fs => .obj (setFields fs k v)
  | other => other

/-- The `then_that` value registered by the observer (`predicates.ts`):
`http_post` with `url = <external_base_url>/payload` and
`authorization_header = Bearer <auth_token>`. -/
def thenThatValue (o : EventObserverOptions) : Json :=
  .obj [("http_post", .obj
    [("url", .str (o.external_base_url ++ "/payload")),
     ("authorization_header", .str ("Bearer " ++ o.auth_token))])]

/-- Overwrite `then_that` on each declared network (`if (networks.mainnet)
networks.mainnet.then_that = thenThat`, and likewise for testnet). -/
def setNetworksThenThat (o : EventObserverOptions) (nw : Networks) : Networks :=
  { mainnet := nw.mainnet.map (fun n => setField n "then_that" (thenThatValue o)),
    testnet := nw.testnet.map (fun n => setField n "then_that" (thenThatValue o)) }

/-- The `predicate_re_register_callback` hook (`predicates.ts`): when the
observer option is configured, the body handed on to the POST is whatever
the callback returns (`newPredicate = await
observer.predicate_re_register_callback(newPredicate)`); otherwise the body
passes through unchanged. -/
def applyReRegisterCallback (o : EventObserverOptions)
    (body : PredicateObj) : PredicateObj :=
  match o.predicate_re_register_callback with
  | some cb => cb body
  | none => body

/-- `registerPredicate` (`predicates.ts`): the body POSTed to the Chainhook
node — `uuid` set to the fresh `randomUUID()`, `then_that` overwritten on
each declared network, everything else taken from the pending predicate, and
the result then passed through `predicate_re_register_callback` when that
observer option is configured. -/
def registerPredicateBody (o : EventObserverOptions) (freshUuid : String)
    (p : PendingPredicate) : PredicateObj :=
  applyReRegisterCallback o
    { uuid := freshUuid,
      name := p.name,
      version := p.version,
      chain := p.chain,
      networks := setNetworksThenThat o p.networks }

theorem applyReRegisterCallback_none {o : EventObserverOptions}
    (h : o.predicate_re_register_callback = none) (b : PredicateObj) :
    applyReRegisterCallback o b = b := by
  simp [applyReRegisterCallback, h]

/-- The legacy `registerPredicates` loop body (`predicates.ts`, also
`registerAllPredicates` in the earlier `server.ts`): the POSTed body keeps
the caller-supplied `uuid` and header fields, overwriting only `then_that`
on each declared network. -/
def registerPredicatesBody (o : EventObserverOptions) (p : PredicateObj) :
    PredicateObj :=
  { p with networks := setNetworksThenThat o p.networks }

/-! ### Lemmas about property assignment -/

theorem lookupField_setFields_same (fs : List (String × Json)) (k : String)
    (v : Json) : lookupField (setFields fs k v) k = some v := by
  induction fs with
  | nil => simp [setFields, lookupField]
  | cons f fs ih =>
      obtain ⟨k2, v2⟩ := f
      by_cases h : k2 = k
      · simp [setFields, lookupField, h]
      · simp [setFields, lookupField, h, ih]

theorem lookupField_setFields_ne (fs : List (String × Json)) {k k2 : String}
    (v : Json) (h : k2 ≠ k) :
    lookupField (setFields fs k v) k2 = lookupField fs k2 := by
  have hk : ¬(k = k2) := fun e => h e.symm
  induction fs with
  | nil => simp [setFields, lookupField, hk]
  | cons f fs ih =>
      obtain ⟨k3, v3⟩ := f
      by_cases h3 : k3 = k
      · simp [setFields, lookupField, h3, hk]
      · simp [setFields, lookupField, h3, ih]

theorem setField_get_self {j : Json} (hj : j.isObj = true) (k : String)
    (v : Json) : (setField j k v).get k = some v := by
  cases j <;> simp [Json.isObj] at hj
  simp [setField, Json.get, lookupField_setFields_same]

theorem setField_get_other (j : Json) {k k2 : String} (v : Json)
    (h : k2 ≠ k) : (setField j k v).get k2 = j.get k2 := by
  cases j <;> simp [setField, Json.get]
  exact lookupField_setFields_ne _ _ h

theorem setField_isObj {j : Json} (hj : j.isObj = true) (k : String)
    (v : Json) : (setField j k v).isObj = true := by
  cases j <;> simp [Json.isObj] at hj ⊢
  simp [setField, Json.isObj]

/-! ### Sample values used by the witnesses -/

/-- A sample block identifier. -/
def sampleBlockId : Json :=
  .obj [("index", .num 2), ("hash", .str "0x02")]

/-- A sample parent block identifier. -/
def sampleParentBlockId : Json :=
  .obj [("index", .num 1), ("hash", .str "0x01")]

/-- A sample STX transfer transaction event. -/
def sampleStxEvent : Json :=
  .obj [("type", .str "STXTransferEvent"),
        ("position", .obj [("index", .num 0)]),
        ("data", .obj [("amount", .str "100"),
                       ("sender", .str "ST1SENDER"),
                       ("recipient", .str "ST1RECIPIENT")])]

/-- A sample transaction receipt carrying `sampleStxEvent`. -/
def sampleStacksReceipt : Json :=
  .obj [("contract_calls_stack", .arr []),
        ("events", .arr [sampleStxEvent]),
        ("mutated_assets_radius", .arr []),
        ("mutated_contracts_radius", .arr [])]

/-- A sample schema-valid Stacks transaction metadata object. -/
def sampleStacksTxMetadata : Json :=
  .obj [("description", .str "transfer"),
        ("fee", .num 180),
        ("kind", .obj [("type", .str "TokenTransfer")]),
        ("nonce", .num 0),
        ("position", .obj [("index", .num 0)]),
        ("proof", .null),
        ("raw_tx", .str "0x00"),
        ("receipt", sampleStacksReceipt),
        ("result", .str "(ok true)"),
        ("sender", .str "ST1SENDER"),
        ("success", .bool true)]

/-- A sample schema-valid Stacks transaction carrying `sampleStxEvent`. -/
def sampleStacksTx : Json :=
  .obj [("transaction_identifier", .obj [("hash", .str "0xabcd")]),
        ("operations", .arr []),
        ("metadata", sampleStacksTxMetadata)]

/-- A sample schema-valid Stacks block metadata object. -/
def sampleStacksBlockMetadata : Json :=
  .obj [("bitcoin_anchor_block_identifier",
          .obj [("index", .num 900), ("hash", .str "0xb0")]),
        ("confirm_microblock_identifier", .null),
        ("pox_cycle_index", .num 3),
        ("pox_cycle_length", .num 20),
        ("pox_cycle_position", .num 7),
        ("stacks_block_hash", .str "0x5b"),
        ("tenure_height", .num 12),
        ("block_time", .null),
        ("signer_bitvec", .null),
        ("signer_signature", .arr [.str "0x51"]),
        ("cycle_number", .null),
        ("reward_set", .null)]

/-- A sample schema-valid Stacks block. -/
def sampleStacksBlock : Json :=
  .obj [("block_identifier", sampleBlockId),
        ("parent_block_identifier", sampleParentBlockId),
        ("timestamp", .num 1700000000),
        ("transactions", .arr [sampleStacksTx]),
        ("metadata", sampleStacksBlockMetadata)]

/-- A sample schema-valid Stacks payload applying one block. -/
def sampleStacksPayload : Json :=
  .obj [("apply", .arr [sampleStacksBlock]),
        ("rollback", .arr []),
        ("chainhook", .obj
          [("uuid", .str "11111111-2222-3333-4444-555555555555"),
           ("predicate", .obj [("scope", .str "txid")]),
           ("is_streaming_blocks", .bool false)])]

/-- A sample schema-valid Bitcoin payload with empty apply/rollback lists. -/
def sampleBitcoinPayload : Json :=
  .obj [("apply", .arr []),
        ("rollback", .arr []),
        ("chainhook", .obj
          [("uuid", .str "66666666-7777-8888-9999-000000000000"),
           ("predicate", .obj [("scope", .str "outputs")]),
           ("is_streaming_blocks", .bool true)])]

/-- A sample Nakamoto signer peer-info object. -/
def samplePeerInfo : Json :=
  .obj [("burn_block_height", .num 850000),
        ("stacks_tip_consensus_hash", .str "0xc0"),
        ("stacks_tip", .str "0x7f"),
        ("stacks_tip_height", .num 160000),
        ("pox_consensus", .str "0xd0"),
        ("server_version", .str "stacks-signer 3.0"),
        ("network_id", .num 1),
        ("index_block_hash", .str "0x9a")]

/-- A sample `MockProposal` signer message. -/
def sampleSignerMessage : Json :=
  .obj [("type", .str "MockProposal"), ("data", samplePeerInfo)]

/-- A sample `SignerMessage` transaction event wrapping `sampleSignerMessage`. -/
def sampleSignerMessageEvent : Json :=
  .obj [("type", .str "SignerMessage"),
        ("data", .obj [("contract", .str "signers-0-1"),
                       ("sig", .str "0x00"),
                       ("pubkey", .str "0x02aa"),
                       ("message", sampleSignerMessage)])]

/-- A sample `interrupted` predicate status. -/
def sampleInterruptedStatus : Json :=
  .obj [("info", .str "scan aborted"), ("type", .str "interrupted")]

/-- A sample serialized predicate in the `interrupted` status. -/
def sampleSerializedPredicate : Json :=
  .obj [("chain", .str "stacks"),
        ("uuid", .str "11111111-2222-3333-4444-555555555555"),
        ("network", .str "mainnet"),
        ("predicate", .obj [("scope", .str "txid")]),
        ("status", sampleInterruptedStatus),
        ("enabled", .bool false)]

/-- A sample `http_post` action. -/
def sampleThenThat : Json :=
  .obj [("http_post", .obj
    [("url", .str "http://observer:3000/payload"),
     ("authorization_header", .str "Bearer secret")])]

/-- Sample observer options with both validations left at their defaults. -/
def sampleObserver : EventObserverOptions :=
  { auth_token := "secret", external_base_url := "http://observer:3000" }

/-- Sample observer options with token validation turned off. -/
def sampleObserverNoAuth : EventObserverOptions :=
  { auth_token := "secret", external_base_url := "http://observer:3000",
    validate_token_authorization := some false }

/-- A sample network entry (an `if_this` plus a `start_block` option). -/
def sampleNetworkEntry : Json :=
  .obj [("if_this", .obj [("scope", .str "txid"),
                          ("equals", .str "0x411e")]),
        ("start_block", .num 10200)]

/-- A sample pending (caller-built) predicate declaring only mainnet. -/
def samplePending : PendingPredicate :=
  { name := "tx-watch", version := 1, chain := "stacks",
    networks := { mainnet := some sampleNetworkEntry } }

/-- A sample full predicate with a caller-supplied uuid, as handled by the
legacy registration path. -/
def sampleCallerPredicate : PredicateObj :=
  { uuid := "caller-uuid", name := "tx-watch", version := 1,
    chain := "stacks", networks := { mainnet := some sampleNetworkEntry } }

/-- A sample re-register callback: replaces the generated uuid with a
caller-chosen one and renames the predicate. -/
def sampleReRegisterCallback (p : PredicateObj) : PredicateObj :=
  { p with uuid := "caller-uuid", name := "renamed" }

/-- Sample observer options with a configured
`predicate_re_register_callback`. -/
def sampleObserverWithCallback : EventObserverOptions :=
  { auth_token := "secret", external_base_url := "http://observer:3000",
    predicate_re_register_callback := some sampleReRegisterCallback }

/-! ### Composite extraction lemmas -/

theorem reqProp_iff {j : Json} {k : String} {c : Json → Bool} :
    reqProp j k c = true ↔ ∃ v, j.get k = some v ∧ c v = true :=
  ⟨reqProp_true, fun ⟨_, hv, hc⟩ => reqProp_of_get hv hc⟩

theorem reqProp_isString_iff {j : Json} {k : String} :
    reqProp j k isString = true ↔ ∃ s, j.get k = some (Json.str s) := by
  rw [reqProp_iff]
  constructor
  · rintro ⟨v, hv, hc⟩
    obtain ⟨s, rfl⟩ := isString_true hc
    exact ⟨s, hv⟩
  · rintro ⟨s, hv⟩
    exact ⟨.str s, hv, rfl⟩

theorem reqProp_isInteger_iff {j : Json} {k : String} :
    reqProp j k isInteger = true ↔ ∃ n, j.get k = some (Json.num n) := by
  rw [reqProp_iff]
  constructor
  · rintro ⟨v, hv, hc⟩
    obtain ⟨n, rfl⟩ := isInteger_true hc
    exact ⟨n, hv⟩
  · rintro ⟨n, hv⟩
    exact ⟨.num n, hv, rfl⟩

theorem reqProp_isBoolean_iff {j : Json} {k : String} :
    reqProp j k isBoolean = true ↔ ∃ b, j.get k = some (Json.bool b) := by
  rw [reqProp_iff]
  constructor
  · rintro ⟨v, hv, hc⟩
    obtain ⟨b, rfl⟩ := isBoolean_true hc
    exact ⟨b, hv⟩
  · rintro ⟨b, hv⟩
    exact ⟨.bool b, hv, rfl⟩

theorem reqProp_isLit_iff {j : Json} {k s : String} :
    reqProp j k (isLit s) = true ↔ j.get k = some (Json.str s) := by
  rw [reqProp_iff]
  constructor
  · rintro ⟨v, hv, hc⟩
    rw [isLit_true hc] at hv
    exact hv
  · intro hv
    exact ⟨.str s, hv, by simp [isLit]⟩

theorem reqProp_arrayOf {c : Json → Bool} {j : Json} {k : String}
    {xs : List Json} (h : reqProp j k (arrayOf c) = true)
    (hx : j.get k = some (Json.arr xs)) : ∀ x ∈ xs, c x = true := by
  obtain ⟨v, hv, hc⟩ := reqProp_true h
  rw [hv] at hx
  obtain ⟨ys, rfl, hall⟩ := arrayOf_true hc
  injection hx with hx
  injection hx with hx
  exact hx ▸ hall

theorem checkBlockIdentifier_fields {j : Json}
    (h : checkBlockIdentifier j = true) :
    (∃ n, j.get "index" = some (Json.num n)) ∧
    (∃ s, j.get "hash" = some (Json.str s)) := by
  simp only [checkBlockIdentifier, Bool.and_eq_true, and_assoc,
    reqProp_isInteger_iff, reqProp_isString_iff] at h
  exact ⟨h.2.1, h.2.2⟩

theorem checkPredicateExpiredData_fields {j : Json}
    (h : checkPredicateExpiredData j = true) :
    (∃ n, j.get "expired_at_block_height" = some (Json.num n)) ∧
    (∃ n, j.get "last_evaluated_block_height" = some (Json.num n)) ∧
    (∃ n, j.get "number_of_blocks_evaluated" = some (Json.num n)) ∧
    (∃ n, j.get "number_of_times_triggered" = some (Json.num n)) := by
  simp only [checkPredicateExpiredData, Bool.and_eq_true, and_assoc,
    reqProp_isInteger_iff] at h
  exact ⟨h.2.1, h.2.2.1, h.2.2.2.2.1, h.2.2.2.2.2⟩

/-! ### Helper lemmas about the server and registration models -/

theorem bearer_ne_empty (t : String) : ("Bearer " ++ t) ≠ "" := by
  intro he
  have hlen := congrArg String.length he
  simp [String.length_append] at hlen
  exact absurd hlen.1 (by decide)

theorem isEventAuthorized_iff (o : EventObserverOptions)
    (hv : validateTokenAuth o = true) (h : Option String) :
    isEventAuthorized o h = true ↔ h = some ("Bearer " ++ o.auth_token) := by
  cases h with
  | none =>
      unfold isEventAuthorized
      rw [hv]
      simp
  | some a =>
      unfold isEventAuthorized
      rw [hv]
      simp
      rintro rfl
      exact bearer_ne_empty _

theorem thenThatValue_fields (o : EventObserverOptions) :
    ∃ hp, (thenThatValue o).get "http_post" = some hp ∧
      hp.get "url" = some (Json.str (o.external_base_url ++ "/payload")) ∧
      hp.get "authorization_header" =
        some (Json.str ("Bearer " ++ o.auth_token)) := by
  refine ⟨Json.obj [("url", Json.str (o.external_base_url ++ "/payload")),
    ("authorization_header", Json.str ("Bearer " ++ o.auth_token))],
    ?_, ?_, ?_⟩ <;>
    simp [thenThatValue, Json.get, lookupField]

theorem bitcoinPayload_fields {j : Json} (h : checkBitcoinPayload j = true) :
    (∃ a, j.get "apply" = some (Json.arr a)) ∧
    (∃ r, j.get "rollback" = some (Json.arr r)) ∧
    (∃ ch, j.get "chainhook" = some ch ∧
      (∃ u, ch.get "uuid" = some (Json.str u)) ∧
      (∃ p, ch.get "predicate" = some p ∧ checkBitcoinIfThis p = true) ∧
      (∃ b, ch.get "is_streaming_blocks" = some (Json.bool b))) ∧
    (∀ blocks, (j.get "apply" = some (Json.arr blocks) ∨
        j.get "rollback" = some (Json.arr blocks)) →
      ∀ b ∈ blocks, checkBitcoinEvent b = true) := by
  simp only [checkBitcoinPayload, Bool.and_eq_true, and_assoc] at h
  obtain ⟨-, ha, hr, hch⟩ := h
  obtain ⟨va, hva, hac⟩ := reqProp_true ha
  obtain ⟨xs, rfl, -⟩ := arrayOf_true hac
  obtain ⟨vr, hvr, hrc⟩ := reqProp_true hr
  obtain ⟨ys, rfl, -⟩ := arrayOf_true hrc
  obtain ⟨ch, hchv, hchc⟩ := reqProp_true hch
  simp only [Bool.and_eq_true, and_assoc, reqProp_isString_iff,
    reqProp_isBoolean_iff] at hchc
  obtain ⟨-, hu, hp, hb⟩ := hchc
  refine ⟨⟨xs, hva⟩, ⟨ys, hvr⟩, ⟨ch, hchv, hu, reqProp_true hp, hb⟩, ?_⟩
  rintro blocks (hb2 | hb2)
  · exact reqProp_arrayOf ha hb2
  · exact reqProp_arrayOf hr hb2

theorem stacksPayload_fields {j : Json} (h : checkStacksPayload j = true) :
    (∃ a, j.get "apply" = some (Json.arr a)) ∧
    (∃ r, j.get "rollback" = some (Json.arr r)) ∧
    (∃ ch, j.get "chainhook" = some ch ∧
      (∃ u, ch.get "uuid" = some (Json.str u)) ∧
      (∃ p, ch.get "predicate" = some p ∧ checkStacksIfThis p = true) ∧
      (∃ b, ch.get "is_streaming_blocks" = some (Json.bool b))) ∧
    (∀ blocks, (j.get "apply" = some (Json.arr blocks) ∨
        j.get "rollback" = some (Json.arr blocks)) →
      ∀ b ∈ blocks, checkStacksEvent b = true) := by
  simp only [checkStacksPayload, Bool.and_eq_true, and_assoc] at h
  obtain ⟨-, ha, hr, hch⟩ := h
  obtain ⟨va, hva, hac⟩ := reqProp_true ha
  obtain ⟨xs, rfl, -⟩ := arrayOf_true hac
  obtain ⟨vr, hvr, hrc⟩ := reqProp_true hr
  obtain ⟨ys, rfl, -⟩ := arrayOf_true hrc
  obtain ⟨ch, hchv, hchc⟩ := reqProp_true hch
  simp only [Bool.and_eq_true, and_assoc, reqProp_isString_iff,
    reqProp_isBoolean_iff] at hchc
  obtain ⟨-, hu, hp, hb⟩ := hchc
  refine ⟨⟨xs, hva⟩, ⟨ys, hvr⟩, ⟨ch, hchv, hu, reqProp_true hp, hb⟩, ?_⟩
  rintro blocks (hb2 | hb2)
  · exact reqProp_arrayOf ha hb2
  · exact reqProp_arrayOf hr hb2

/-! ### The claims -/

/-- C1: every body accepted by the payload schema has the shape
`apply`/`rollback`/`chainhook`: it validates as a Bitcoin or a Stacks payload,
`apply` and `rollback` are arrays whose elements all validate as the
corresponding chain's block schema, and the `chainhook` envelope carries a
`uuid` string, an `if_this` predicate specification, and a boolean
`is_streaming_blocks`.  Contrapositively, a body lacking any of these parts
fails the schema. -/
theorem C1_payload_shape (j : Json) (h : checkPayload j = true) :
    ((checkBitcoinPayload j = true ∧
        ∀ blocks, (j.get "apply" = some (Json.arr blocks) ∨
          j.get "rollback" = some (Json.arr blocks)) →
          ∀ b ∈ blocks, checkBitcoinEvent b = true) ∨
     (checkStacksPayload j = true ∧
        ∀ blocks, (j.get "apply" = some (Json.arr blocks) ∨
          j.get "rollback" = some (Json.arr blocks)) →
          ∀ b ∈ blocks, checkStacksEvent b = true)) ∧
    (∃ a, j.get "apply" = some (Json.arr a)) ∧
    (∃ r, j.get "rollback" = some (Json.arr r)) ∧
    (∃ ch, j.get "chainhook" = some ch ∧
      (∃ u, ch.get "uuid" = some (Json.str u)) ∧
      (∃ p, ch.get "predicate" = some p ∧
        (checkBitcoinIfThis p = true ∨ checkStacksIfThis p = true)) ∧
      (∃ b, ch.get "is_streaming_blocks" = some (Json.bool b))) := by
  simp only [checkPayload, Bool.or_eq_true] at h
  rcases h with hb | hs
  · obtain ⟨ha, hr, ⟨ch, hchv, hu, ⟨p, hp, hpc⟩, hbl⟩, hev⟩ :=
      bitcoinPayload_fields hb
    exact ⟨Or.inl ⟨hb, hev⟩, ha, hr, ch, hchv, hu, ⟨p, hp, Or.inl hpc⟩, hbl⟩
  · obtain ⟨ha, hr, ⟨ch, hchv, hu, ⟨p, hp, hpc⟩, hbl⟩, hev⟩ :=
      stacksPayload_fields hs
    exact ⟨Or.inr ⟨hs, hev⟩, ha, hr, ch, hchv, hu, ⟨p, hp, Or.inr hpc⟩, hbl⟩

/-- C1 witness: the payload-shape theorem applied to a concrete schema-valid
Bitcoin payload. -/
theorem C1_payload_shape_witness :
    (∃ a, sampleBitcoinPayload.get "apply" = some (Json.arr a)) ∧
    (∃ r, sampleBitcoinPayload.get "rollback" = some (Json.arr r)) ∧
    (∃ ch, sampleBitcoinPayload.get "chainhook" = some ch ∧
      (∃ u, ch.get "uuid" = some (Json.str u)) ∧
      (∃ p, ch.get "predicate" = some p ∧
        (checkBitcoinIfThis p = true ∨ checkStacksIfThis p = true)) ∧
      (∃ b, ch.get "is_streaming_blocks" = some (Json.bool b))) :=
  (C1_payload_shape sampleBitcoinPayload (by decide)).2

/-- C2: every value accepted by the serialized predicate-status schema carries
one of exactly the six `type` tags `scanning`, `streaming`,
`unconfirmed_expiration`, `confirmed_expiration`, `interrupted`, `new`; the
`interrupted` variant carries a reason string in `info`, and both expiration
variants carry `expired_at_block_height`, `last_evaluated_block_height`,
`number_of_blocks_evaluated` and `number_of_times_triggered`; a serialized
predicate's `status` field validates against that status schema. -/
theorem C2_predicate_status_six_variants :
    (∀ j, checkPredicateStatus j = true →
      ∃ t, j.get "type" = some (Json.str t) ∧
        (t = "scanning" ∨ t = "streaming" ∨ t = "unconfirmed_expiration" ∨
         t = "confirmed_expiration" ∨ t = "interrupted" ∨ t = "new") ∧
        (t = "interrupted" → ∃ r, j.get "info" = some (Json.str r)) ∧
        ((t = "unconfirmed_expiration" ∨ t = "confirmed_expiration") →
          ∃ i, j.get "info" = some i ∧
            (∃ n, i.get "expired_at_block_height" = some (Json.num n)) ∧
            (∃ n, i.get "last_evaluated_block_height" = some (Json.num n)) ∧
            (∃ n, i.get "number_of_blocks_evaluated" = some (Json.num n)) ∧
            (∃ n, i.get "number_of_times_triggered" = some (Json.num n)))) ∧
    (∀ sp, checkSerializedPredicate sp = true →
      ∃ st, sp.get "status" = some st ∧ checkPredicateStatus st = true) := by
  constructor
  · intro j h
    simp only [checkPredicateStatus, Bool.or_eq_true] at h
    rcases h with ((((hs | hs) | hs) | hs) | hs) | hs
    · simp only [checkStatusScanning, Bool.and_eq_true, and_assoc,
        reqProp_isLit_iff] at hs
      obtain ⟨-, -, hty⟩ := hs
      refine ⟨"scanning", hty, by tauto, ?_, ?_⟩
      · intro he; exact absurd he (by decide)
      · rintro (he | he) <;> exact absurd he (by decide)
    · simp only [checkStatusStreaming, Bool.and_eq_true, and_assoc,
        reqProp_isLit_iff] at hs
      obtain ⟨-, -, hty⟩ := hs
      refine ⟨"streaming", hty, by tauto, ?_, ?_⟩
      · intro he; exact absurd he (by decide)
      · rintro (he | he) <;> exact absurd he (by decide)
    · simp only [checkStatusUnconfirmedExpiration, Bool.and_eq_true, and_assoc,
        reqProp_isLit_iff] at hs
      obtain ⟨-, hinfo, hty⟩ := hs
      obtain ⟨i, hi, hic⟩ := reqProp_true hinfo
      refine ⟨"unconfirmed_expiration", hty, by tauto, ?_, ?_⟩
      · intro he; exact absurd he (by decide)
      · intro _; exact ⟨i, hi, checkPredicateExpiredData_fields hic⟩
    · simp only [checkStatusConfirmedExpiration, Bool.and_eq_true, and_assoc,
        reqProp_isLit_iff] at hs
      obtain ⟨-, hinfo, hty⟩ := hs
      obtain ⟨i, hi, hic⟩ := reqProp_true hinfo
      refine ⟨"confirmed_expiration", hty, by tauto, ?_, ?_⟩
      · intro he; exact absurd he (by decide)
      · intro _; exact ⟨i, hi, checkPredicateExpiredData_fields hic⟩
    · simp only [checkStatusInterrupted, Bool.and_eq_true, and_assoc,
        reqProp_isLit_iff, reqProp_isString_iff] at hs
      obtain ⟨-, hinfo, hty⟩ := hs
      refine ⟨"interrupted", hty, by tauto, fun _ => hinfo, ?_⟩
      rintro (he | he) <;> exact absurd he (by decide)
    · simp only [checkStatusNew, Bool.and_eq_true, reqProp_isLit_iff] at hs
      refine ⟨"new", hs.2, by tauto, ?_, ?_⟩
      · intro he; exact absurd he (by decide)
      · rintro (he | he) <;> exact absurd he (by decide)
  · intro sp h
    simp only [checkSerializedPredicate, Bool.and_eq_true, and_assoc] at h
    obtain ⟨-, -, -, -, -, hst, -⟩ := h
    exact reqProp_true hst

/-- C2 witness: the status theorem applied to a concrete `interrupted` status
and a concrete serialized predicate. -/
theorem C2_predicate_status_six_variants_witness :
    (∃ t, sampleInterruptedStatus.get "type" = some (Json.str t)) ∧
    (∃ st, sampleSerializedPredicate.get "status" = some st ∧
      checkPredicateStatus st = true) := by
  obtain ⟨t, hty, -, -, -⟩ :=
    C2_predicate_status_six_variants.1 sampleInterruptedStatus (by decide)
  exact ⟨⟨t, hty⟩,
    C2_predicate_status_six_variants.2 sampleSerializedPredicate (by decide)⟩

/-- C3 counterexample: the claim says every failing callback (a throw) is
answered 500, but when the callback throws `BadPayloadRequestError` the
`/payload` handler replies 400, not 500, at this concrete request. -/
theorem C3_bad_payload_throw_replies_400 :
    serverReply sampleObserverNoAuth none sampleBitcoinPayload
        CallbackResult.badPayloadError = 400 ∧
    serverReply sampleObserverNoAuth none sampleBitcoinPayload
        CallbackResult.badPayloadError ≠ 500 := by
  constructor <;> decide

/-- C3 (amended): for every authorized POST to `/payload` that passes payload
validation, the reply is 200 when the callback resolves, 500 when it throws
any error other than `BadPayloadRequestError` (so the node retries), and 400
when it throws `BadPayloadRequestError`. -/
theorem C3_payload_reply_statuses (o : EventObserverOptions)
    (h : Option String) (body : Json)
    (hauth : isEventAuthorized o h = true)
    (hvp : (validatePayloads o && !(checkPayload body)) = false) :
    serverReply o h body CallbackResult.resolved = 200 ∧
    serverReply o h body CallbackResult.processingError = 500 ∧
    serverReply o h body CallbackResult.badPayloadError = 400 := by
  simp [serverReply, payloadHandlerStatus, hauth, hvp]

/-- C3 witness: the reply-status theorem applied to a concrete request. -/
theorem C3_payload_reply_statuses_witness :
    serverReply sampleObserverNoAuth none sampleStacksPayload
        CallbackResult.resolved = 200 ∧
    serverReply sampleObserverNoAuth none sampleStacksPayload
        CallbackResult.processingError = 500 ∧
    serverReply sampleObserverNoAuth none sampleStacksPayload
        CallbackResult.badPayloadError = 400 :=
  C3_payload_reply_statuses sampleObserverNoAuth none sampleStacksPayload
    (by decide) (by decide)

/-- C4: with token validation enabled (the default), the callback runs only
when the `authorization` header equals `Bearer <auth_token>` exactly; any
request with a different or absent header is answered 403 with the callback
never invoked; and `Bearer <auth_token>` is exactly the
`authorization_header` the observer registers in each predicate's
`http_post` action. -/
theorem C4_authorization_gate (o : EventObserverOptions) (h : Option String)
    (body : Json) (r : CallbackResult) (hv : validateTokenAuth o = true) :
    (callbackInvoked o h body = true → h = some ("Bearer " ++ o.auth_token)) ∧
    (h ≠ some ("Bearer " ++ o.auth_token) →
      serverReply o h body r = 403 ∧ callbackInvoked o h body = false) ∧
    (∃ hp, (thenThatValue o).get "http_post" = some hp ∧
      hp.get "authorization_header" =
        some (Json.str ("Bearer " ++ o.auth_token))) := by
  refine ⟨?_, ?_, ?_⟩
  · intro hc
    unfold callbackInvoked at hc
    rw [Bool.and_eq_true] at hc
    exact (isEventAuthorized_iff o hv h).mp hc.1
  · intro hne
    have hfa : isEventAuthorized o h = false := by
      cases hha : isEventAuthorized o h
      · rfl
      · exact absurd ((isEventAuthorized_iff o hv h).mp hha) hne
    constructor
    · simp [serverReply, hfa]
    · simp [callbackInvoked, hfa]
  · obtain ⟨hp, h1, -, h3⟩ := thenThatValue_fields o
    exact ⟨hp, h1, h3⟩

/-- C4 witness: the authorization-gate theorem applied to a concrete observer,
once with a matching header and once with a wrong header. -/
theorem C4_authorization_gate_witness :
    (some "Bearer secret" : Option String) =
      some ("Bearer " ++ sampleObserver.auth_token) ∧
    serverReply sampleObserver (some "Bearer wrong") sampleStacksPayload
      CallbackResult.resolved = 403 ∧
    callbackInvoked sampleObserver (some "Bearer wrong")
      sampleStacksPayload = false :=
  ⟨(C4_authorization_gate sampleObserver (some "Bearer secret")
      sampleStacksPayload CallbackResult.resolved (by decide)).1 (by decide),
   (C4_authorization_gate sampleObserver (some "Bearer wrong")
      sampleStacksPayload CallbackResult.resolved (by decide)).2.1 (by decide)⟩

/-- C5: every value accepted by the Stacks signer-message schema carries one
of exactly the six Nakamoto tags `BlockProposal`, `BlockResponse`,
`BlockPushed`, `MockSignature`, `MockProposal`, `MockBlock`; a
`BlockResponse` wraps an `Accepted` or a `Rejected` sub-variant; and every
`SignerMessage` transaction event wraps a message validating against that
schema. -/
theorem C5_signer_message_six_variants :
    (∀ j, checkStacksSignerMessage j = true →
      ∃ t, j.get "type" = some (Json.str t) ∧
        (t = "BlockProposal" ∨ t = "BlockResponse" ∨ t = "BlockPushed" ∨
         t = "MockSignature" ∨ t = "MockProposal" ∨ t = "MockBlock") ∧
        (t = "BlockResponse" → ∃ d, j.get "data" = some d ∧
          ∃ dt, d.get "type" = some (Json.str dt) ∧
            (dt = "Accepted" ∨ dt = "Rejected"))) ∧
    (∀ e, checkStacksSignerMessageEvent e = true →
      ∃ d, e.get "data" = some d ∧ ∃ m, d.get "message" = some m ∧
        checkStacksSignerMessage m = true) := by
  constructor
  · intro j h
    simp only [checkStacksSignerMessage, Bool.or_eq_true] at h
    rcases h with ((((hs | hs) | hs) | hs) | hs) | hs
    · simp only [checkSignerBlockProposal, Bool.and_eq_true, and_assoc,
        reqProp_isLit_iff] at hs
      exact ⟨"BlockProposal", hs.2.1, by tauto, fun he => absurd he (by decide)⟩
    · simp only [checkSignerBlockResponse, Bool.and_eq_true, and_assoc,
        reqProp_isLit_iff] at hs
      obtain ⟨-, hty, hdata⟩ := hs
      obtain ⟨d, hd, hdc⟩ := reqProp_true hdata
      simp only [Bool.or_eq_true] at hdc
      refine ⟨"BlockResponse", hty, by tauto, fun _ => ⟨d, hd, ?_⟩⟩
      rcases hdc with hacc | hrej
      · simp only [checkSignerBlockResponseAccepted, Bool.and_eq_true,
          and_assoc, reqProp_isLit_iff] at hacc
        exact ⟨"Accepted", hacc.2.1, Or.inl rfl⟩
      · simp only [checkSignerBlockResponseRejected, Bool.and_eq_true,
          and_assoc, reqProp_isLit_iff] at hrej
        exact ⟨"Rejected", hrej.2.1, Or.inr rfl⟩
    · simp only [checkSignerBlockPushed, Bool.and_eq_true, and_assoc,
        reqProp_isLit_iff] at hs
      exact ⟨"BlockPushed", hs.2.1, by tauto, fun he => absurd he (by decide)⟩
    · simp only [checkSignerMockSignature, Bool.and_eq_true, and_assoc,
        reqProp_isLit_iff] at hs
      exact ⟨"MockSignature", hs.2.1, by tauto, fun he => absurd he (by decide)⟩
    · simp only [checkSignerMockProposal, Bool.and_eq_true, and_assoc,
        reqProp_isLit_iff] at hs
      exact ⟨"MockProposal", hs.2.1, by tauto, fun he => absurd he (by decide)⟩
    · simp only [checkSignerMockBlock, Bool.and_eq_true, and_assoc,
        reqProp_isLit_iff] at hs
      exact ⟨"MockBlock", hs.2.1, by tauto, fun he => absurd he (by decide)⟩
  · intro e h
    simp only [checkStacksSignerMessageEvent, Bool.and_eq_true, and_assoc,
      reqProp_isLit_iff] at h
    obtain ⟨-, -, hdata⟩ := h
    obtain ⟨d, hd, hdc⟩ := reqProp_true hdata
    simp only [Bool.and_eq_true, and_assoc] at hdc
    obtain ⟨-, -, -, -, hmsg⟩ := hdc
    obtain ⟨m, hm, hmc⟩ := reqProp_true hmsg
    exact ⟨d, hd, m, hm, hmc⟩

/-- C5 witness: the signer-message theorem applied to a concrete
`MockProposal` message and a concrete `SignerMessage` event. -/
theorem C5_signer_message_six_variants_witness :
    (∃ t, sampleSignerMessage.get "type" = some (Json.str t)) ∧
    (∃ d, sampleSignerMessageEvent.get "data" = some d ∧
      ∃ m, d.get "message" = some m ∧ checkStacksSignerMessage m = true) := by
  obtain ⟨t, hty, -, -⟩ :=
    C5_signer_message_six_variants.1 sampleSignerMessage (by decide)
  exact ⟨⟨t, hty⟩,
    C5_signer_message_six_variants.2 sampleSignerMessageEvent (by decide)⟩

/-- C6: in a schema-valid Stacks payload, every block of `apply` or
`rollback` validates as a Stacks block, every event in every transaction's
receipt validates against the transaction-event schema, and every value
accepted by that schema carries one of exactly the fifteen typed tags
(FT/NFT/STX transfer-mint-burn-lock, data-var/map events, smart-contract
events). -/
theorem C6_transaction_event_variants :
    (∀ p blocks, checkStacksPayload p = true →
      (p.get "apply" = some (Json.arr blocks) ∨
       p.get "rollback" = some (Json.arr blocks)) →
      ∀ b ∈ blocks, checkStacksEvent b = true) ∧
    (∀ b, checkStacksEvent b = true →
      ∀ txs, b.get "transactions" = some (Json.arr txs) →
      ∀ t ∈ txs, ∀ md rc evs, t.get "metadata" = some md →
        md.get "receipt" = some rc → rc.get "events" = some (Json.arr evs) →
        ∀ e ∈ evs, checkStacksTransactionEvent e = true) ∧
    (∀ e, checkStacksTransactionEvent e = true →
      ∃ t, e.get "type" = some (Json.str t) ∧
        (t = "FTTransferEvent" ∨ t = "FTMintEvent" ∨ t = "FTBurnEvent" ∨
         t = "NFTTransferEvent" ∨ t = "NFTMintEvent" ∨ t = "NFTBurnEvent" ∨
         t = "STXTransferEvent" ∨ t = "STXMintEvent" ∨ t = "STXLockEvent" ∨
         t = "STXBurnEvent" ∨ t = "DataVarSetEvent" ∨
         t = "DataMapInsertEvent" ∨ t = "DataMapUpdateEvent" ∨
         t = "DataMapDeleteEvent" ∨ t = "SmartContractEvent")) := by
  refine ⟨?_, ?_, ?_⟩
  · intro p blocks h hb
    simp only [checkStacksPayload, Bool.and_eq_true, and_assoc] at h
    obtain ⟨-, ha, hr, -⟩ := h
    rcases hb with hb | hb
    · exact reqProp_arrayOf ha hb
    · exact reqProp_arrayOf hr hb
  · intro b h txs htxs t ht md rc evs hmd hrc hevs e he
    simp only [checkStacksEvent, Bool.and_eq_true, and_assoc] at h
    obtain ⟨-, -, -, -, htr, -⟩ := h
    have htc := reqProp_arrayOf htr htxs t ht
    simp only [checkStacksTransaction, Bool.and_eq_true, and_assoc] at htc
    obtain ⟨-, -, -, hmdp⟩ := htc
    obtain ⟨md2, hmd2, hmdc⟩ := reqProp_true hmdp
    rw [hmd] at hmd2
    injection hmd2 with hmd2
    subst hmd2
    simp only [checkStacksTransactionMetadata, Bool.and_eq_true,
      and_assoc] at hmdc
    obtain ⟨-, -, -, -, -, -, -, -, -, hrcp, -⟩ := hmdc
    obtain ⟨rc2, hrc2, hrcc⟩ := reqProp_true hrcp
    rw [hrc] at hrc2
    injection hrc2 with hrc2
    subst hrc2
    simp only [checkStacksTransactionReceipt, Bool.and_eq_true,
      and_assoc] at hrcc
    obtain ⟨-, -, hevp, -⟩ := hrcc
    exact reqProp_arrayOf hevp hevs e he
  · intro e h
    simp only [checkStacksTransactionEvent, Bool.or_eq_true] at h
    rcases h with
      (((((((((((((hs | hs) | hs) | hs) | hs) | hs) | hs) | hs) | hs) | hs) |
        hs) | hs) | hs) | hs) | hs
    · simp only [checkFtTransferEvent, Bool.and_eq_true, and_assoc,
        reqProp_isLit_iff] at hs
      exact ⟨"FTTransferEvent", hs.2.1, by tauto⟩
    · simp only [checkFtMintEvent, Bool.and_eq_true, and_assoc,
        reqProp_isLit_iff] at hs
      exact ⟨"FTMintEvent", hs.2.1, by tauto⟩
    · simp only [checkFtBurnEvent, Bool.and_eq_true, and_assoc,
        reqProp_isLit_iff] at hs
      exact ⟨"FTBurnEvent", hs.2.1, by tauto⟩
    · simp only [checkNftTransferEvent, Bool.and_eq_true, and_assoc,
        reqProp_isLit_iff] at hs
      exact ⟨"NFTTransferEvent", hs.2.1, by tauto⟩
    · simp only [checkNftMintEvent, Bool.and_eq_true, and_assoc,
        reqProp_isLit_iff] at hs
      exact ⟨"NFTMintEvent", hs.2.1, by tauto⟩
    · simp only [checkNftBurnEvent, Bool.and_eq_true, and_assoc,
        reqProp_isLit_iff] at hs
      exact ⟨"NFTBurnEvent", hs.2.1, by tauto⟩
    · simp only [checkStxTransferEvent, Bool.and_eq_true, and_assoc,
        reqProp_isLit_iff] at hs
      exact ⟨"STXTransferEvent", hs.2.1, by tauto⟩
    · simp only [checkStxMintEvent, Bool.and_eq_true, and_assoc,
        reqProp_isLit_iff] at hs
      exact ⟨"STXMintEvent", hs.2.1, by tauto⟩
    · simp only [checkStxLockEvent, Bool.and_eq_true, and_assoc,
        reqProp_isLit_iff] at hs
      exact ⟨"STXLockEvent", hs.2.1, by tauto⟩
    · simp only [checkStxBurnEvent, Bool.and_eq_true, and_assoc,
        reqProp_isLit_iff] at hs
      exact ⟨"STXBurnEvent", hs.2.1, by tauto⟩
    · simp only [checkDataVarSetEvent, Bool.and_eq_true, and_assoc,
        reqProp_isLit_iff] at hs
      exact ⟨"DataVarSetEvent", hs.2.1, by tauto⟩
    · simp only [checkDataMapInsertEvent, Bool.and_eq_true, and_assoc,
        reqProp_isLit_iff] at hs
      exact ⟨"DataMapInsertEvent", hs.2.1, by tauto⟩
    · simp only [checkDataMapUpdateEvent, Bool.and_eq_true, and_assoc,
        reqProp_isLit_iff] at hs
      exact ⟨"DataMapUpdateEvent", hs.2.1, by tauto⟩
    · simp only [checkDataMapDeleteEvent, Bool.and_eq_true, and_assoc,
        reqProp_isLit_iff] at hs
      exact ⟨"DataMapDeleteEvent", hs.2.1, by tauto⟩
    · simp only [checkSmartContractEvent, Bool.and_eq_true, and_assoc,
        reqProp_isLit_iff] at hs
      exact ⟨"SmartContractEvent", hs.2.1, by tauto⟩

/-- C6 witness: the event-variant theorem walked through a concrete
schema-valid Stacks payload down to its single STX transfer event. -/
theorem C6_transaction_event_variants_witness :
    checkStacksEvent sampleStacksBlock = true ∧
    checkStacksTransactionEvent sampleStxEvent = true ∧
    (∃ t, sampleStxEvent.get "type" = some (Json.str t)) := by
  have h1 := C6_transaction_event_variants.1 sampleStacksPayload
    [sampleStacksBlock] (by decide) (Or.inl rfl) sampleStacksBlock (by simp)
  have h2 := C6_transaction_event_variants.2.1 sampleStacksBlock h1
    [sampleStacksTx] rfl sampleStacksTx (by simp)
    sampleStacksTxMetadata sampleStacksReceipt [sampleStxEvent]
    rfl rfl rfl sampleStxEvent (by simp)
  obtain ⟨t, hty, -⟩ := C6_transaction_event_variants.2.2 sampleStxEvent h2
  exact ⟨h1, h2, t, hty⟩

/-- C7: a value validates against the `then_that` action schema exactly when
it is a `file_append` object carrying a string `path`, or an `http_post`
object carrying a string `url` (annotated with the `uri` format, which the
client leaves unenforced) and a string `authorization_header`; no other
action shape is accepted. -/
theorem C7_then_that_two_action_shapes (j : Json) :
    checkThenThat j = true ↔
      ((j.isObj = true ∧ ∃ fa, j.get "file_append" = some fa ∧
          fa.isObj = true ∧ ∃ p, fa.get "path" = some p ∧ isString p = true) ∨
       (j.isObj = true ∧ ∃ hp, j.get "http_post" = some hp ∧
          hp.isObj = true ∧
          (∃ u, hp.get "url" = some u ∧ isString u = true) ∧
          (∃ a, hp.get "authorization_header" = some a ∧
            isString a = true))) := by
  simp only [checkThenThat, checkThenThatFileAppend, checkThenThatHttpPost,
    Bool.or_eq_true, Bool.and_eq_true, and_assoc, reqProp_iff]

/-- C7 witness: the action-shape theorem applied to a concrete `http_post`
action. -/
theorem C7_then_that_two_action_shapes_witness :
    sampleThenThat.isObj = true ∧
    ∃ hp, sampleThenThat.get "http_post" = some hp ∧ hp.isObj = true ∧
      (∃ u, hp.get "url" = some u ∧ isString u = true) ∧
      (∃ a, hp.get "authorization_header" = some a ∧ isString a = true) := by
  rcases (C7_then_that_two_action_shapes sampleThenThat).mp (by decide)
    with h | h
  · obtain ⟨-, fa, hfa, -⟩ := h
    simp [sampleThenThat, Json.get, lookupField] at hfa
  · exact h

/-- C8: every value accepted by the Stacks block-metadata schema carries
`bitcoin_anchor_block_identifier` (a block identifier),
`confirm_microblock_identifier` (nullable block identifier), the three
`pox_cycle_*` integers and the `stacks_block_hash` string, and the Nakamoto
fields `tenure_height`, `block_time`, `signer_bitvec`, `signer_signature`,
`cycle_number` and `reward_set` are always present as nullable fields. -/
theorem C8_stacks_block_metadata_fields (m : Json)
    (h : checkStacksEventMetadata m = true) :
    (∃ v, m.get "bitcoin_anchor_block_identifier" = some v ∧
      (∃ n, v.get "index" = some (Json.num n)) ∧
      (∃ s, v.get "hash" = some (Json.str s))) ∧
    (∃ v, m.get "confirm_microblock_identifier" = some v ∧
      (v = Json.null ∨ ((∃ n, v.get "index" = some (Json.num n)) ∧
        (∃ s, v.get "hash" = some (Json.str s))))) ∧
    (∃ n, m.get "pox_cycle_index" = some (Json.num n)) ∧
    (∃ n, m.get "pox_cycle_length" = some (Json.num n)) ∧
    (∃ n, m.get "pox_cycle_position" = some (Json.num n)) ∧
    (∃ s, m.get "stacks_block_hash" = some (Json.str s)) ∧
    (∃ v, m.get "tenure_height" = some v ∧
      (v = Json.null ∨ ∃ n, v = Json.num n)) ∧
    (∃ v, m.get "block_time" = some v ∧
      (v = Json.null ∨ ∃ n, v = Json.num n)) ∧
    (∃ v, m.get "signer_bitvec" = some v ∧
      (v = Json.null ∨ ∃ s, v = Json.str s)) ∧
    (∃ v, m.get "signer_signature" = some v ∧
      (v = Json.null ∨ ∃ xs, v = Json.arr xs ∧ ∀ x ∈ xs, isString x = true)) ∧
    (∃ v, m.get "cycle_number" = some v ∧
      (v = Json.null ∨ ∃ n, v = Json.num n)) ∧
    (∃ v, m.get "reward_set" = some v ∧
      (v = Json.null ∨ ((∃ s, v.get "pox_ustx_threshold" = some (Json.str s)) ∧
        (∃ w, v.get "rewarded_addresses" = some w ∧
          arrayOf isString w = true)))) := by
  simp only [checkStacksEventMetadata, Bool.and_eq_true, and_assoc,
    reqProp_isInteger_iff, reqProp_isString_iff] at h
  obtain ⟨-, hanchor, hconf, hpi, hpl, hpp, hsbh, hth, hbt, hsb, hss, hcn,
    hrs⟩ := h
  refine ⟨?_, ?_, hpi, hpl, hpp, hsbh, ?_, ?_, ?_, ?_, ?_, ?_⟩
  · obtain ⟨v, hv, hc⟩ := reqProp_true hanchor
    exact ⟨v, hv, checkBlockIdentifier_fields hc⟩
  · obtain ⟨v, hv, hc⟩ := reqProp_true hconf
    refine ⟨v, hv, ?_⟩
    rcases nullable_true hc with hn | hc2
    · exact Or.inl hn
    · exact Or.inr (checkBlockIdentifier_fields hc2)
  · obtain ⟨v, hv, hc⟩ := reqProp_true hth
    refine ⟨v, hv, ?_⟩
    rcases nullable_true hc with hn | hc2
    · exact Or.inl hn
    · exact Or.inr (isInteger_true hc2)
  · obtain ⟨v, hv, hc⟩ := reqProp_true hbt
    refine ⟨v, hv, ?_⟩
    rcases nullable_true hc with hn | hc2
    · exact Or.inl hn
    · exact Or.inr (isInteger_true hc2)
  · obtain ⟨v, hv, hc⟩ := reqProp_true hsb
    refine ⟨v, hv, ?_⟩
    rcases nullable_true hc with hn | hc2
    · exact Or.inl hn
    · exact Or.inr (isString_true hc2)
  · obtain ⟨v, hv, hc⟩ := reqProp_true hss
    refine ⟨v, hv, ?_⟩
    rcases nullable_true hc with hn | hc2
    · exact Or.inl hn
    · exact Or.inr (arrayOf_true hc2)
  · obtain ⟨v, hv, hc⟩ := reqProp_true hcn
    refine ⟨v, hv, ?_⟩
    rcases nullable_true hc with hn | hc2
    · exact Or.inl hn
    · exact Or.inr (isInteger_true hc2)
  · obtain ⟨v, hv, hc⟩ := reqProp_true hrs
    refine ⟨v, hv, ?_⟩
    rcases nullable_true hc with hn | hc2
    · exact Or.inl hn
    · simp only [checkRewardSet, Bool.and_eq_true, and_assoc,
        reqProp_isString_iff] at hc2
      obtain ⟨-, hthr, hrew, -⟩ := hc2
      exact Or.inr ⟨hthr, reqProp_true hrew⟩

/-- C8 witness: the metadata-field theorem applied to a concrete schema-valid
Stacks block metadata object. -/
theorem C8_stacks_block_metadata_fields_witness :
    (∃ n, sampleStacksBlockMetadata.get "pox_cycle_index" =
      some (Json.num n)) ∧
    (∃ v, sampleStacksBlockMetadata.get "tenure_height" = some v ∧
      (v = Json.null ∨ ∃ n, v = Json.num n)) ∧
    (∃ v, sampleStacksBlockMetadata.get "signer_signature" = some v ∧
      (v = Json.null ∨ ∃ xs, v = Json.arr xs ∧
        ∀ x ∈ xs, isString x = true)) := by
  obtain ⟨-, -, hpi, -, -, -, hth, -, -, hss, -⟩ :=
    C8_stacks_block_metadata_fields sampleStacksBlockMetadata (by decide)
  exact ⟨hpi, hth, hss⟩

/-- C9 counterexample: with a configured `predicate_re_register_callback`
the body POSTed by `registerPredicate` is whatever the callback returns, so
the posted uuid is not the freshly generated one and two registrations with
distinct fresh uuids can share the same caller-chosen uuid — refuting the
claim at this concrete observer. -/
theorem C9_reregister_callback_overrides_uuid :
    (registerPredicateBody sampleObserverWithCallback "uuid-a"
      samplePending).uuid ≠ "uuid-a" ∧
    (registerPredicateBody sampleObserverWithCallback "uuid-a"
        samplePending).uuid =
      (registerPredicateBody sampleObserverWithCallback "uuid-b"
        samplePending).uuid ∧
    (registerPredicateBody sampleObserverWithCallback "uuid-a"
      samplePending).uuid = "caller-uuid" := by
  refine ⟨?_, ?_, ?_⟩ <;> decide

/-- C9 (amended): when the observer has no `predicate_re_register_callback`
configured (the default), the `registerPredicate` path POSTs the predicate
with its `uuid` set to the freshly generated `randomUUID()` value —
independent of anything in the caller-built predicate, which carries no
`uuid` of its own — so distinct generated values yield distinct registered
uuids; a configured callback may replace the posted body, including its
uuid. -/
theorem C9_registration_fresh_uuid :
    (∀ o u p, o.predicate_re_register_callback = none →
      (registerPredicateBody o u p).uuid = u) ∧
    (∀ o u p1 p2, o.predicate_re_register_callback = none →
      (registerPredicateBody o u p1).uuid =
        (registerPredicateBody o u p2).uuid) ∧
    (∀ o1 o2 u1 u2 p1 p2, o1.predicate_re_register_callback = none →
      o2.predicate_re_register_callback = none → u1 ≠ u2 →
      (registerPredicateBody o1 u1 p1).uuid ≠
        (registerPredicateBody o2 u2 p2).uuid) := by
  refine ⟨?_, ?_, ?_⟩
  · intro o u p hcb
    simp [registerPredicateBody, applyReRegisterCallback_none hcb]
  · intro o u p1 p2 hcb
    simp [registerPredicateBody, applyReRegisterCallback_none hcb]
  · intro o1 o2 u1 u2 p1 p2 hcb1 hcb2 hne
    simpa [registerPredicateBody, applyReRegisterCallback_none hcb1,
      applyReRegisterCallback_none hcb2] using hne

/-- C9 witness: the fresh-uuid theorem applied to a concrete callback-free
observer, a concrete predicate and two distinct generated uuids. -/
theorem C9_registration_fresh_uuid_witness :
    (registerPredicateBody sampleObserver "uuid-a" samplePending).uuid =
      "uuid-a" ∧
    (registerPredicateBody sampleObserver "uuid-a" samplePending).uuid ≠
      (registerPredicateBody sampleObserver "uuid-b" samplePending).uuid :=
  ⟨C9_registration_fresh_uuid.1 sampleObserver "uuid-a" samplePending rfl,
   C9_registration_fresh_uuid.2.2 sampleObserver sampleObserver
     "uuid-a" "uuid-b" samplePending samplePending rfl rfl (by decide)⟩

/-- C10 counterexample: with a configured `predicate_re_register_callback`
the POSTed body is the callback's return value, so fields other than `uuid`
and `then_that` can change before the POST — at this concrete observer the
posted `name` differs from the pending predicate's, refuting the claim that
everything besides `uuid` and `then_that` is sent unchanged. -/
theorem C10_reregister_callback_changes_name :
    (registerPredicateBody sampleObserverWithCallback "uuid-a"
      samplePending).name ≠ samplePending.name := by
  decide

/-- C10 (amended): when the observer has no `predicate_re_register_callback`
configured (the default), registration modifies only the `uuid` and each
declared network's `then_that` — set to `http_post` with
`url = <external_base_url>/payload` and
`authorization_header = Bearer <auth_token>` — while `name`, `chain`,
`version`, and every other network key (the `if_this` specification and the
option flags) are POSTed unchanged; undeclared networks stay absent; a
configured callback may transform the body arbitrarily before the POST.  The
same frame holds unconditionally for the legacy `registerPredicates` path,
which has no callback hook and additionally keeps the `uuid` unchanged. -/
theorem C10_registration_frame (o : EventObserverOptions) (u : String)
    (p : PendingPredicate) (q : PredicateObj)
    (hcb : o.predicate_re_register_callback = none) :
    ((registerPredicateBody o u p).name = p.name ∧
     (registerPredicateBody o u p).chain = p.chain ∧
     (registerPredicateBody o u p).version = p.version) ∧
    (∀ n, p.networks.mainnet = some n → n.isObj = true →
      ∃ n2, (registerPredicateBody o u p).networks.mainnet = some n2 ∧
        n2.get "then_that" = some (thenThatValue o) ∧
        ∀ k, k ≠ "then_that" → n2.get k = n.get k) ∧
    (∀ n, p.networks.testnet = some n → n.isObj = true →
      ∃ n2, (registerPredicateBody o u p).networks.testnet = some n2 ∧
        n2.get "then_that" = some (thenThatValue o) ∧
        ∀ k, k ≠ "then_that" → n2.get k = n.get k) ∧
    (p.networks.mainnet = none →
      (registerPredicateBody o u p).networks.mainnet = none) ∧
    (p.networks.testnet = none →
      (registerPredicateBody o u p).networks.testnet = none) ∧
    (∃ hp, (thenThatValue o).get "http_post" = some hp ∧
      hp.get "url" = some (Json.str (o.external_base_url ++ "/payload")) ∧
      hp.get "authorization_header" =
        some (Json.str ("Bearer " ++ o.auth_token))) ∧
    ((registerPredicatesBody o q).uuid = q.uuid ∧
     (registerPredicatesBody o q).name = q.name ∧
     (registerPredicatesBody o q).chain = q.chain ∧
     (registerPredicatesBody o q).version = q.version ∧
     ∀ n, q.networks.mainnet = some n → n.isObj = true →
       ∃ n2, (registerPredicatesBody o q).networks.mainnet = some n2 ∧
         n2.get "then_that" = some (thenThatValue o) ∧
         ∀ k, k ≠ "then_that" → n2.get k = n.get k) := by
  have hbody : registerPredicateBody o u p =
      { uuid := u, name := p.name, version := p.version, chain := p.chain,
        networks := setNetworksThenThat o p.networks } :=
    applyReRegisterCallback_none hcb _
  rw [hbody]
  refine ⟨⟨rfl, rfl, rfl⟩, ?_, ?_, ?_, ?_, thenThatValue_fields o,
    rfl, rfl, rfl, rfl, ?_⟩
  · intro n hn hobj
    refine ⟨setField n "then_that" (thenThatValue o), ?_,
      setField_get_self hobj _ _, fun k hk => setField_get_other n _ hk⟩
    simp [setNetworksThenThat, hn]
  · intro n hn hobj
    refine ⟨setField n "then_that" (thenThatValue o), ?_,
      setField_get_self hobj _ _, fun k hk => setField_get_other n _ hk⟩
    simp [setNetworksThenThat, hn]
  · intro hn
    simp [setNetworksThenThat, hn]
  · intro hn
    simp [setNetworksThenThat, hn]
  · intro n hn hobj
    refine ⟨setField n "then_that" (thenThatValue o), ?_,
      setField_get_self hobj _ _, fun k hk => setField_get_other n _ hk⟩
    simp [registerPredicatesBody, setNetworksThenThat, hn]

/-- C10 witness: the frame theorem applied to a concrete callback-free
observer, a concrete pending predicate (declared mainnet, absent testnet)
and a concrete legacy predicate. -/
theorem C10_registration_frame_witness :
    (∃ n2, (registerPredicateBody sampleObserver "uuid-w"
        samplePending).networks.mainnet = some n2 ∧
      n2.get "then_that" = some (thenThatValue sampleObserver) ∧
      ∀ k, k ≠ "then_that" → n2.get k = sampleNetworkEntry.get k) ∧
    (registerPredicateBody sampleObserver "uuid-w"
      samplePending).networks.testnet = none ∧
    (∃ n2, (registerPredicatesBody sampleObserver
        sampleCallerPredicate).networks.mainnet = some n2 ∧
      n2.get "then_that" = some (thenThatValue sampleObserver) ∧
      ∀ k, k ≠ "then_that" → n2.get k = sampleNetworkEntry.get k) := by
  have h := C10_registration_frame sampleObserver "uuid-w" samplePending
    sampleCallerPredicate rfl
  exact ⟨h.2.1 sampleNetworkEntry rfl (by decide),
    h.2.2.2.2.1 rfl,
    h.2.2.2.2.2.2.2.2.2.2 sampleNetworkEntry rfl (by decide)⟩
